import Mathlib

/-!
Verification development for the asynction AsyncAPI/Socket.IO binding engine.

The definitions below are a shallow embedding of the Python sources:
`asynction/server.py` (reference resolution, handler registration),
`asynction/types.py` (document model, construction-time invariants),
`asynction/validation.py` (payload validation) and
`asynction/security.py` (security checks and the security handler).

Python dynamic values are modelled by the `Py` inductive; Python exceptions
are modelled by `Except` result types.  Python generators, whose one-shot
consumption semantics matter for the security-scope validation, are modelled
explicitly by list-consuming functions.  External collaborators (the
`jsonschema` conformance primitive, the handler registry populated by dynamic
imports) are parameters of the embedding, as the specification treats them as
black boxes.
-/

namespace Asynction

/-- Python-like dynamic values: JSON scalars plus the three container shapes
(`list`, `tuple`, `set`) that `deep_resolve` distinguishes, and `dict`. -/
inductive Py where
  | str (s : String)
  | int (n : Int)
  | bool (b : Bool)
  | none
  | dict (fields : List (String × Py))
  | list (items : List Py)
  | tuple (items : List Py)
  | set (items : List Py)
deriving Repr

/-- Lookup of a key in a Python dict (first binding wins, as in a dict there
is at most one binding per key). -/
def lookupKey : List (String × Py) → String → Option Py
  | [], _ => Option.none
  | (k', v) :: rest, k => if k' = k then some v else lookupKey rest k

/-! String helpers defined over character lists so that every definition of
the embedding reduces inside the kernel. -/

/-- Python whitespace characters, as recognised by `str.split(None)` and
`str.strip()`. -/
def isPyWs (c : Char) : Bool :=
  c = ' ' || c = '\t' || c = '\n' || c = '\x0d' || c = '\x0b' || c = '\x0c'

/-- Lower-case a string character by character, as `str.lower()` does on the
ASCII range. -/
def pyStrLower (s : String) : String :=
  String.mk (s.toList.map Char.toLower)

/-- Replace every non-overlapping occurrence of the two-character pattern
`a b` by `repl`, scanning left to right, as `str.replace` does. -/
def replacePair (a b : Char) (repl : List Char) : List Char → List Char
  | [] => []
  | [c] => [c]
  | c :: d :: rest =>
    if c = a && d = b then repl ++ replacePair a b repl rest
    else c :: replacePair a b repl (d :: rest)

/-- Split a character list on a separator character, as `str.split(sep)`. -/
def splitCharsOn (sep : Char) : List Char → List (List Char)
  | [] => [[]]
  | c :: cs =>
    let rest := splitCharsOn sep cs
    if c = sep then [] :: rest
    else
      match rest with
      | r :: rs => (c :: r) :: rs
      | [] => [[c]]

/-- Strip leading and trailing whitespace, as `str.strip()`. -/
def trimChars (cs : List Char) : List Char :=
  ((cs.dropWhile isPyWs).reverse.dropWhile isPyWs).reverse

/-- Parse a non-empty all-digit character list as a natural number, the
non-negative fragment of Python's `int(part)`. -/
def digitsToNatAux : Nat → List Char → Option Nat
  | acc, [] => some acc
  | acc, c :: cs =>
    if '0' ≤ c && c ≤ '9' then digitsToNatAux (acc * 10 + (c.toNat - 48)) cs
    else Option.none

/-- Parse a decimal index, as the `int(part)` attempt of sequence indexing in
fragment resolution. -/
def parseDecimal : List Char → Option Nat
  | [] => Option.none
  | cs => digitsToNatAux 0 cs

/-- Errors arising while running `resolve_references` / `deep_resolve`
(`asynction/server.py`).  `typeError` stands for a Python `TypeError`,
`refResolutionError` for `jsonschema.RefResolutionError`, and
`recursionError` for exhaustion of the Python recursion limit. -/
inductive ResolveErr where
  | typeError
  | refResolutionError
  | recursionError
deriving Repr, DecidableEq

/-- Test whether a `Py` value is the string literal used as the reference
marker: Python's `"$ref" in someList` compares the marker for equality with
each element. -/
def isRefMarker : Py → Bool
  | .str s => s = "$ref"
  | _ => false

/-- Containment of one character list inside another, used to model Python's
substring membership test on strings. -/
def charsInfixOf (needle : List Char) : List Char → Bool
  | [] => needle.isPrefixOf []
  | c :: cs => needle.isPrefixOf (c :: cs) || charsInfixOf needle cs

/-- Python's membership test `"$ref" in v`, applied by `deep_resolve` to every
dict value and container item regardless of its type: key membership for a
dict, substring containment for a string, element membership for
list/tuple/set, and a `TypeError` for int/bool/None. -/
def refIn : Py → Except ResolveErr Bool
  | .dict fields => .ok (fields.any (fun kv => kv.1 = "$ref"))
  | .str s => .ok (charsInfixOf "$ref".toList s.toList)
  | .list items => .ok (items.any isRefMarker)
  | .tuple items => .ok (items.any isRefMarker)
  | .set items => .ok (items.any isRefMarker)
  | _ => .error .typeError

/-- Python's subscription `v["$ref"]`, performed after the membership test
succeeded: only a dict yields the pointer; a string or list subscripted with a
string raises `TypeError`, as does a set (not subscriptable). -/
def getRefPointer : Py → Except ResolveErr Py
  | .dict fields =>
    match lookupKey fields "$ref" with
    | some v => .ok v
    | Option.none => .error .typeError
  | _ => .error .typeError

/-- Unescape one JSON-Pointer token the way `jsonschema`'s fragment resolution
does: replace the escape `~1` by a slash and then `~0` by a tilde. -/
def unescapeToken (s : String) : String :=
  String.mk (replacePair '~' '0' ['~'] (replacePair '~' '1' ['/'] s.toList))

/-- Walk a parsed JSON-Pointer fragment against a document, indexing dicts by
key and sequences by decimal index, as `jsonschema` fragment resolution does;
a missing key or index is a resolution error. -/
def resolveFragment : Py → List String → Except ResolveErr Py
  | doc, [] => .ok doc
  | doc, part :: rest =>
    let tok := unescapeToken part
    match doc with
    | .dict fields =>
      match lookupKey fields tok with
      | some v => resolveFragment v rest
      | Option.none => .error .refResolutionError
    | .list items =>
      match parseDecimal tok.toList with
      | some i =>
        match items.get? i with
        | some v => resolveFragment v rest
        | Option.none => .error .refResolutionError
      | Option.none => .error .refResolutionError
    | .tuple items =>
      match parseDecimal tok.toList with
      | some i =>
        match items.get? i with
        | some v => resolveFragment v rest
        | Option.none => .error .refResolutionError
      | Option.none => .error .refResolutionError
    | _ => .error .refResolutionError

/-- Parse a same-document JSON-Pointer of the form `#`, `#/a/b`: strip the
leading hash, drop leading slashes (as Python's `lstrip` does), and split on
slashes; a pointer without the fragment marker would require remote
resolution, which the embedding does not model. -/
def parsePointer (ptr : String) : Option (List String) :=
  match ptr.toList with
  | '#' :: rest =>
    let frag := rest.dropWhile (fun c => c = '/')
    if frag = [] then some []
    else some ((splitCharsOn '/' frag).map String.mk)
  | _ => Option.none

/-- Model of `resolver.resolve(pointer)[-1]`: dereference the pointer against
the original document root.  A non-string pointer raises `TypeError` inside
the url join; a dangling pointer raises a resolution error. -/
def resolveRef (root : Py) (ptr : Py) : Except ResolveErr Py :=
  match ptr with
  | .str s =>
    match parsePointer s with
    | some parts => resolveFragment root parts
    | Option.none => .error .refResolutionError
  | _ => .error .typeError

/-- Effectful map over a list, stopping at the first error, mirroring how a
Python comprehension propagates exceptions. -/
def mapExcept {ε α β : Type} (f : α → Except ε β) : List α → Except ε (List β)
  | [] => .ok []
  | a :: rest => do
    let b ← f a
    let bs ← mapExcept f rest
    .ok (b :: bs)

/-- Per-item step of `deep_resolve`'s container branches: test `"$ref" in v`
(which may raise `TypeError`), dereference and recurse on the target when the
test holds, otherwise recurse on the item itself.  `recur` is the recursive
entry of `deep_resolve` at the current fuel. -/
def deepResolveItem (root : Py) (recur : Py → Except ResolveErr Py)
    (v : Py) : Except ResolveErr Py := do
  if (← refIn v) then
    recur (← resolveRef root (← getRefPointer v))
  else
    recur v

/-- Shallow embedding of `deep_resolve` (`asynction/server.py`).  The `fuel`
argument models the Python recursion limit: the source recursion is not
structural (it recurses into dereferenced targets), which in Python is bounded
only by the interpreter's recursion limit. -/
def deep_resolve (root : Py) : Nat → Py → Except ResolveErr Py
  | 0, _ => .error .recursionError
  | fuel + 1, .dict fields =>
    Py.dict <$> mapExcept
      (fun kv => (fun v' => (kv.1, v')) <$>
        deepResolveItem root (deep_resolve root fuel) kv.2) fields
  | fuel + 1, .list items =>
    Py.list <$> mapExcept (deepResolveItem root (deep_resolve root fuel)) items
  | fuel + 1, .tuple items =>
    Py.tuple <$> mapExcept (deepResolveItem root (deep_resolve root fuel)) items
  | fuel + 1, .set items =>
    Py.set <$> mapExcept (deepResolveItem root (deep_resolve root fuel)) items
  | _ + 1, v => .ok v

/-- Python's default recursion limit, bounding the non-structural recursion of
`deep_resolve`. -/
def PYTHON_RECURSION_LIMIT : Nat := 1000

/-- Shallow embedding of `resolve_references` (`asynction/server.py`): run
`deep_resolve` on the raw document with the document itself as resolution
root. -/
def resolve_references (rawSpec : Py) : Except ResolveErr Py :=
  deep_resolve rawSpec PYTHON_RECURSION_LIMIT rawSpec

/-! Document model (`asynction/types.py`).  Python `Mapping` fields are
modelled as association lists preserving insertion order, `Optional` fields as
`Option`, and dataclass `__post_init__` validation as smart constructors
returning `Except`. -/

/-- Generic association-list lookup for Python dict access by string key. -/
def assocGet {α : Type} : List (String × α) → String → Option α
  | [], _ => Option.none
  | (k', v) :: rest, k => if k' = k then some v else assocGet rest k

/-- HTTP authentication schemes recognised by the model. -/
inductive HTTPAuthenticationScheme where
  | basic
  | digest
  | bearer
deriving Repr, DecidableEq

/-- Security scheme types of the AsyncAPI `securitySchemeObject`. -/
inductive SecuritySchemesType where
  | userPassword
  | apiKey
  | x509
  | symmetricEncryption
  | asymmetricEncryption
  | httpApiKey
  | http
  | oauth2
  | openIdConnect
  | plain
  | scramSha256
  | scramSha512
  | gssapi
deriving Repr, DecidableEq

/-- Locations an API key may be carried in. -/
inductive ApiKeyLocation where
  | user
  | password
  | query
  | header
  | cookie
deriving Repr, DecidableEq

/-- Ways a server can be reached. -/
inductive ServerProtocol where
  | http
  | https
  | ws
  | wss
deriving Repr, DecidableEq

/-- Structured stand-ins for the messages of the `ValueError`s raised by the
document model's construction-time validation; the exact rendering of the
Python message strings is irrelevant to the claims. -/
inductive SpecMsg where
  | flowsRequired
  | schemeRequiredForHttp
  | invalidApiKeyIn
  | apiKeyNameRequired
  | implicitMissingAuthorizationUrl
  | passwordMissingTokenUrl
  | clientCredentialsMissingTokenUrl
  | authorizationCodeMissingTokenUrl
  | missingPublishMessageHandler (messageName : String)
  | invalidSecurityRequirement (requiredBy : String)
  | missingSecurityScheme (schemeName : String)
  | scopesMustBeEmpty (schemeType : SecuritySchemesType)
  | undefinedOAuth2Scope (scope : String) (schemeName : String)
  | requirementUnpacking
deriving Repr, DecidableEq

/-- Errors of document construction: `forgeError` models a deserialization
type mismatch or missing required field, `keyError` a raw `KeyError`, and
`valueError` the `ValueError`s raised by `__post_init__` validation. -/
inductive SpecErr where
  | forgeError
  | keyError (key : String)
  | valueError (msg : SpecMsg)
deriving Repr, DecidableEq

/-- One OAuth2 flow: a scopes mapping and optional URLs. -/
structure OAuth2Flow where
  scopes : List (String × String)
  authorization_url : Option String := Option.none
  token_url : Option String := Option.none
  refresh_url : Option String := Option.none
deriving Repr, DecidableEq

/-- The four optional OAuth2 flows. -/
structure OAuth2Flows where
  implicit : Option OAuth2Flow := Option.none
  password : Option OAuth2Flow := Option.none
  client_credentials : Option OAuth2Flow := Option.none
  authorization_code : Option OAuth2Flow := Option.none
deriving Repr, DecidableEq

/-- Whether an optional flow is present but misses a required URL field. -/
def flowMissingUrl (fl : Option OAuth2Flow) (url : OAuth2Flow → Option String) : Bool :=
  match fl with
  | some flow => (url flow).isNone
  | Option.none => false

/-- Validation chain of `OAuth2Flows.__post_init__`. -/
def OAuth2Flows.post_init (f : OAuth2Flows) : Except SpecErr Unit :=
  if flowMissingUrl f.implicit OAuth2Flow.authorization_url then
    .error (.valueError .implicitMissingAuthorizationUrl)
  else if flowMissingUrl f.password OAuth2Flow.token_url then
    .error (.valueError .passwordMissingTokenUrl)
  else if flowMissingUrl f.client_credentials OAuth2Flow.token_url then
    .error (.valueError .clientCredentialsMissingTokenUrl)
  else if flowMissingUrl f.authorization_code OAuth2Flow.token_url then
    .error (.valueError .authorizationCodeMissingTokenUrl)
  else .ok ()

/-- Construction of an `OAuth2Flows` value, running `__post_init__`. -/
def mkOAuth2Flows (f : OAuth2Flows) : Except SpecErr OAuth2Flows := do
  f.post_init
  pure f

/-- The `supported_scopes` generator of `OAuth2Flows`: yields the scope names
of every present flow, in dataclass field order and scope insertion order.
The generator object itself is modelled as the produced list; its one-shot
consumption is modelled at the use site. -/
def OAuth2Flows.supported_scopes (f : OAuth2Flows) : List String :=
  (([f.implicit, f.password, f.client_credentials, f.authorization_code].filterMap id).map
    (fun flow => flow.scopes.map (fun kv => kv.1))).flatten

/-- Security scheme record, including the asynction handler extensions. -/
structure SecurityScheme where
  type : SecuritySchemesType
  description : Option String := Option.none
  name : Option String := Option.none
  in_ : Option ApiKeyLocation := Option.none
  scheme : Option HTTPAuthenticationScheme := Option.none
  bearer_format : Option String := Option.none
  flows : Option OAuth2Flows := Option.none
  open_id_connect_url : Option String := Option.none
  x_basic_info_func : Option String := Option.none
  x_bearer_info_func : Option String := Option.none
  x_token_info_func : Option String := Option.none
  x_api_key_info_func : Option String := Option.none
  x_scope_validate_func : Option String := Option.none
deriving Repr, DecidableEq

/-- Validation of `SecurityScheme.__post_init__`: flows are required for
oauth2/openIdConnect, `scheme` for http, and `in`/`name` for httpApiKey
(`not self.name` is Python truthiness, so an empty name also fails). -/
def SecurityScheme.post_init (s : SecurityScheme) : Except SpecErr Unit := do
  if s.flows.isNone && (s.type = SecuritySchemesType.oauth2
      || s.type = SecuritySchemesType.openIdConnect) then
    throw (SpecErr.valueError SpecMsg.flowsRequired)
  if s.type = SecuritySchemesType.http then
    if s.scheme.isNone then
      throw (SpecErr.valueError SpecMsg.schemeRequiredForHttp)
  if s.type = SecuritySchemesType.httpApiKey then
    match s.in_ with
    | Option.none => throw (SpecErr.valueError SpecMsg.invalidApiKeyIn)
    | some loc =>
      if !(loc = ApiKeyLocation.query || loc = ApiKeyLocation.header
          || loc = ApiKeyLocation.cookie) then
        throw (SpecErr.valueError SpecMsg.invalidApiKeyIn)
    if s.name.isNone || s.name = some "" then
      throw (SpecErr.valueError SpecMsg.apiKeyNameRequired)
  pure ()

/-- Construction of a `SecurityScheme`, running `__post_init__`. -/
def mkSecurityScheme (s : SecurityScheme) : Except SpecErr SecurityScheme := do
  s.post_init
  pure s

/-- A security requirement: a Python mapping from scheme name to scope list,
modelled as an association list. -/
abbrev SecurityRequirement := List (String × List String)

/-- Specification of a message acknowledgement: a raw JSON schema. -/
structure MessageAck where
  args : Py
deriving Repr

/-- One named message with optional payload schema, handler reference and ack
specification. -/
structure Message where
  name : String
  payload : Option Py := Option.none
  x_handler : Option String := Option.none
  x_ack : Option MessageAck := Option.none
deriving Repr

/-- Explicit or singleton message alternatives of an operation. -/
structure OneOfMessages where
  oneOf : List Message
deriving Repr

/-- First message with the given name, as the `with_name` linear scan. -/
def OneOfMessages.with_name (ms : OneOfMessages) (name : String) : Option Message :=
  ms.oneOf.find? (fun m => m.name = name)

/-- A publish or subscribe operation. -/
structure Operation where
  message : OneOfMessages
deriving Repr

/-- WebSockets channel bindings: connection-time constraints. -/
structure WebSocketsChannelBindings where
  method : Option String := Option.none
  query : Option Py := Option.none
  headers : Option Py := Option.none
  bindingVersion : String := "latest"
deriving Repr

/-- Channel bindings wrapper. -/
structure ChannelBindings where
  ws : WebSocketsChannelBindings
deriving Repr

/-- Channel-level connect/disconnect/error handler references. -/
structure ChannelHandlers where
  connect : Option String := Option.none
  disconnect : Option String := Option.none
  error : Option String := Option.none
deriving Repr, DecidableEq

/-- One channel (namespace) of the document. -/
structure Channel where
  subscribe : Option Operation := Option.none
  publish : Option Operation := Option.none
  bindings : Option ChannelBindings := Option.none
  x_handlers : Option ChannelHandlers := Option.none
  x_security : Option (List SecurityRequirement) := Option.none
deriving Repr

/-- Validation of `Channel.__post_init__`: every message under a publish
operation must declare an `x-handler`; the loop raises at the first offending
message. -/
def Channel.post_init (c : Channel) : Except SpecErr Unit :=
  match c.publish with
  | some op =>
    match op.message.oneOf.find? (fun m => m.x_handler.isNone) with
    | some m => .error (.valueError (.missingPublishMessageHandler m.name))
    | Option.none => .ok ()
  | Option.none => .ok ()

/-- Construction of a `Channel`, running `__post_init__`. -/
def mkChannel (c : Channel) : Except SpecErr Channel := do
  c.post_init
  pure c

/-- A server entry of the document. -/
structure Server where
  url : String
  protocol : ServerProtocol
  security : List SecurityRequirement := []
deriving Repr

/-- The info object of the document. -/
structure Info where
  title : String
  version : String
  description : Option String := Option.none
deriving Repr

/-- Components: the registry of named security schemes. -/
structure Components where
  security_schemes : List (String × SecurityScheme) := []
deriving Repr

/-- Python's membership test `x in gen` against a live generator: elements are
consumed up to and including the first match; on a miss the whole remainder is
consumed.  Returns the outcome and the generator's remaining elements. -/
def genMember (x : String) : List String → Bool × List String
  | [] => (false, [])
  | y :: rest => if y = x then (true, rest) else genMember x rest

/-- The scope-checking loop of `AsyncApiSpec._validate_security_requirement`:
the `supported_scopes` generator is created once before the loop, so each
membership test resumes from where the previous one stopped.  Returns the
first scope the loop reports as undefined, if any. -/
def findUndefinedScope : List String → List String → Option String
  | [], _ => Option.none
  | scope :: rest, gen =>
    match genMember scope gen with
    | (true, gen') => findUndefinedScope rest gen'
    | (false, _) => some scope

/-- Shallow embedding of `AsyncApiSpec._validate_security_requirement`. -/
def validate_security_requirement (securitySchemes : List (String × SecurityScheme))
    (requirement : SecurityRequirement) (requiredBy : String) : Except SpecErr Unit := do
  match requirement with
  | [] => throw (SpecErr.valueError SpecMsg.requirementUnpacking)
  | (securitySchemeName, scopes) :: other =>
    if other ≠ [] then
      throw (SpecErr.valueError (SpecMsg.invalidSecurityRequirement requiredBy))
    match assocGet securitySchemes securitySchemeName with
    | Option.none => throw (SpecErr.valueError (SpecMsg.missingSecurityScheme securitySchemeName))
    | some securityScheme =>
      if scopes ≠ [] then
        if !(securityScheme.type = SecuritySchemesType.oauth2
            || securityScheme.type = SecuritySchemesType.openIdConnect) then
          throw (SpecErr.valueError (SpecMsg.scopesMustBeEmpty securityScheme.type))
        if securityScheme.type = SecuritySchemesType.oauth2 then
          match securityScheme.flows with
          | some flows =>
            match findUndefinedScope scopes flows.supported_scopes with
            | some scope =>
              throw (SpecErr.valueError (SpecMsg.undefinedOAuth2Scope scope securitySchemeName))
            | Option.none => pure ()
          | Option.none => pure ()
        else pure ()
      else pure ()

/-- The top-level document.  The `raw` field models the `_raw` attribute that
`from_dict` attaches dynamically; it is absent on directly constructed
instances. -/
structure AsyncApiSpec where
  asyncapi : String
  channels : List (String × Channel)
  info : Info
  servers : List (String × Server) := []
  components : Components := ⟨[]⟩
  raw : Option Py := Option.none
deriving Repr

/-- Validation of `AsyncApiSpec.__post_init__`: every server-level and
channel-level security requirement is validated against the registered
security schemes. -/
def AsyncApiSpec.post_init (spec : AsyncApiSpec) : Except SpecErr Unit := do
  for sv in spec.servers do
    for securityReq in sv.2.security do
      validate_security_requirement spec.components.security_schemes securityReq sv.1
  for ch in spec.channels do
    match ch.2.x_security with
    | some reqs =>
      for securityReq in reqs do
        validate_security_requirement spec.components.security_schemes securityReq ch.1
    | Option.none => pure ()

/-- Construction of an `AsyncApiSpec`, running `__post_init__`. -/
def mkAsyncApiSpec (spec : AsyncApiSpec) : Except SpecErr AsyncApiSpec := do
  spec.post_init
  pure spec

/-! Deserialization (`from_dict`): the custom `forge` staticmethods of
`asynction/types.py` translated directly, with svarog's generic field-by-field
dataclass forging modelled as strict typed parsing (a missing required field
or a type mismatch is a `forgeError`).  Each forge function takes the
`data.get(key)` result, so `Option.none` means "key absent". -/

/-- Forge a required string field. -/
def forgeString : Option Py → Except SpecErr String
  | some (.str s) => .ok s
  | _ => .error .forgeError

/-- Forge an optional string field: an absent key or a null value becomes
`Option.none`. -/
def forgeOptString : Option Py → Except SpecErr (Option String)
  | Option.none => .ok Option.none
  | some .none => .ok Option.none
  | some (.str s) => .ok (some s)
  | _ => .error .forgeError

/-- Forge an optional raw JSON-mapping field (`Optional[JSONSchema]`): kept as
the raw value. -/
def forgeOptJSONMapping : Option Py → Except SpecErr (Option Py)
  | Option.none => .ok Option.none
  | some .none => .ok Option.none
  | some (.dict fields) => .ok (some (.dict fields))
  | _ => .error .forgeError

/-- Forge a required raw JSON-mapping field. -/
def forgeJSONMapping : Option Py → Except SpecErr Py
  | some (.dict fields) => .ok (.dict fields)
  | _ => .error .forgeError

/-- Forge a `Mapping[str, str]`, as used for OAuth2 scope descriptions. -/
def forgeStringMapping : Option Py → Except SpecErr (List (String × String))
  | some (.dict fields) =>
    mapExcept (fun kv =>
      match kv.2 with
      | .str s => .ok (kv.1, s)
      | _ => .error .forgeError) fields
  | _ => .error .forgeError

/-- Forge a `SecuritySchemesType` from its wire value. -/
def forgeSecuritySchemesType : Option Py → Except SpecErr SecuritySchemesType
  | some (.str "userPassword") => .ok .userPassword
  | some (.str "apiKey") => .ok .apiKey
  | some (.str "X509") => .ok .x509
  | some (.str "symmetricEncryption") => .ok .symmetricEncryption
  | some (.str "asymmetricEncryption") => .ok .asymmetricEncryption
  | some (.str "httpApiKey") => .ok .httpApiKey
  | some (.str "http") => .ok .http
  | some (.str "oauth2") => .ok .oauth2
  | some (.str "openIdConnect") => .ok .openIdConnect
  | some (.str "plain") => .ok .plain
  | some (.str "scramSha256") => .ok .scramSha256
  | some (.str "scramSha512") => .ok .scramSha512
  | some (.str "gssapi") => .ok .gssapi
  | _ => .error .forgeError

/-- Forge an optional `ApiKeyLocation` from its wire value. -/
def forgeOptApiKeyLocation : Option Py → Except SpecErr (Option ApiKeyLocation)
  | Option.none => .ok Option.none
  | some .none => .ok Option.none
  | some (.str "user") => .ok (some .user)
  | some (.str "password") => .ok (some .password)
  | some (.str "query") => .ok (some .query)
  | some (.str "header") => .ok (some .header)
  | some (.str "cookie") => .ok (some .cookie)
  | _ => .error .forgeError

/-- Forge an optional `HTTPAuthenticationScheme` from its wire value. -/
def forgeOptHTTPAuthenticationScheme :
    Option Py → Except SpecErr (Option HTTPAuthenticationScheme)
  | Option.none => .ok Option.none
  | some .none => .ok Option.none
  | some (.str "basic") => .ok (some .basic)
  | some (.str "digest") => .ok (some .digest)
  | some (.str "bearer") => .ok (some .bearer)
  | _ => .error .forgeError

/-- Forge a `ServerProtocol` from its wire value. -/
def forgeServerProtocol : Option Py → Except SpecErr ServerProtocol
  | some (.str "http") => .ok .http
  | some (.str "https") => .ok .https
  | some (.str "ws") => .ok .ws
  | some (.str "wss") => .ok .wss
  | _ => .error .forgeError

/-- Custom forge of `OAuth2Flow`: field-by-field from camelCase keys. -/
def forgeOAuth2Flow (data : Py) : Except SpecErr OAuth2Flow := do
  match data with
  | .dict fields =>
    let scopes ← forgeStringMapping (assocGet fields "scopes")
    let authorizationUrl ← forgeOptString (assocGet fields "authorizationUrl")
    let tokenUrl ← forgeOptString (assocGet fields "tokenUrl")
    let refreshUrl ← forgeOptString (assocGet fields "refreshUrl")
    pure { scopes := scopes, authorization_url := authorizationUrl,
           token_url := tokenUrl, refresh_url := refreshUrl }
  | _ => .error .forgeError

/-- Forge an `Optional[OAuth2Flow]` field. -/
def forgeOptOAuth2Flow : Option Py → Except SpecErr (Option OAuth2Flow)
  | Option.none => .ok Option.none
  | some .none => .ok Option.none
  | some v => (fun fl => some fl) <$> forgeOAuth2Flow v

/-- Custom forge of `OAuth2Flows`, running its `__post_init__`. -/
def forgeOAuth2Flows (data : Py) : Except SpecErr OAuth2Flows := do
  match data with
  | .dict fields =>
    let implicit ← forgeOptOAuth2Flow (assocGet fields "implicit")
    let password ← forgeOptOAuth2Flow (assocGet fields "password")
    let clientCredentials ← forgeOptOAuth2Flow (assocGet fields "clientCredentials")
    let authorizationCode ← forgeOptOAuth2Flow (assocGet fields "authorizationCode")
    mkOAuth2Flows { implicit := implicit, password := password,
                    client_credentials := clientCredentials,
                    authorization_code := authorizationCode }
  | _ => .error .forgeError

/-- Forge an `Optional[OAuth2Flows]` field. -/
def forgeOptOAuth2Flows : Option Py → Except SpecErr (Option OAuth2Flows)
  | Option.none => .ok Option.none
  | some .none => .ok Option.none
  | some v => (fun fl => some fl) <$> forgeOAuth2Flows v

/-- Custom forge of `SecurityScheme` from its kebab-case/camelCase keys,
running its `__post_init__`. -/
def forgeSecurityScheme (data : Py) : Except SpecErr SecurityScheme := do
  match data with
  | .dict fields =>
    let type ← forgeSecuritySchemesType (assocGet fields "type")
    let description ← forgeOptString (assocGet fields "description")
    let name ← forgeOptString (assocGet fields "name")
    let in_ ← forgeOptApiKeyLocation (assocGet fields "in")
    let scheme ← forgeOptHTTPAuthenticationScheme (assocGet fields "scheme")
    let bearerFormat ← forgeOptString (assocGet fields "bearerFormat")
    let flows ← forgeOptOAuth2Flows (assocGet fields "flows")
    let openIdConnectUrl ← forgeOptString (assocGet fields "openIdConnectUrl")
    let xBasicInfoFunc ← forgeOptString (assocGet fields "x-basicInfoFunc")
    let xBearerInfoFunc ← forgeOptString (assocGet fields "x-bearerInfoFunc")
    let xTokenInfoFunc ← forgeOptString (assocGet fields "x-tokenInfoFunc")
    let xApiKeyInfoFunc ← forgeOptString (assocGet fields "x-apiKeyInfoFunc")
    let xScopeValidateFunc ← forgeOptString (assocGet fields "x-scopeValidateFunc")
    mkSecurityScheme
      { type := type, description := description, name := name, in_ := in_,
        scheme := scheme, bearer_format := bearerFormat, flows := flows,
        open_id_connect_url := openIdConnectUrl,
        x_basic_info_func := xBasicInfoFunc,
        x_bearer_info_func := xBearerInfoFunc,
        x_token_info_func := xTokenInfoFunc,
        x_api_key_info_func := xApiKeyInfoFunc,
        x_scope_validate_func := xScopeValidateFunc }
  | _ => .error .forgeError

/-- Forge a single security requirement (`Mapping[str, Sequence[str]]`). -/
def forgeSecurityRequirement (data : Py) : Except SpecErr SecurityRequirement := do
  match data with
  | .dict fields =>
    mapExcept (fun kv =>
      match kv.2 with
      | .list items =>
        (fun scopes => (kv.1, scopes)) <$> mapExcept (fun it =>
          match it with
          | Py.str s => Except.ok s
          | _ => Except.error SpecErr.forgeError) items
      | _ => .error .forgeError) fields
  | _ => .error .forgeError

/-- Forge an optional list of security requirements. -/
def forgeOptSecurityRequirements :
    Option Py → Except SpecErr (Option (List SecurityRequirement))
  | Option.none => .ok Option.none
  | some .none => .ok Option.none
  | some (.list items) =>
    (fun reqs => some reqs) <$> mapExcept forgeSecurityRequirement items
  | _ => .error .forgeError

/-- Forge an optional `MessageAck` (generic dataclass forge: the required
`args` schema comes from the `args` key). -/
def forgeOptMessageAck : Option Py → Except SpecErr (Option MessageAck)
  | Option.none => .ok Option.none
  | some .none => .ok Option.none
  | some (.dict fields) =>
    (fun args => some ⟨args⟩) <$> forgeJSONMapping (assocGet fields "args")
  | _ => .error .forgeError

/-- Custom forge of `Message`: the `name` is accessed with `data["name"]`, so
a missing name is a `KeyError`; the remaining fields use `data.get`. -/
def forgeMessage (data : Py) : Except SpecErr Message := do
  match data with
  | .dict fields =>
    match assocGet fields "name" with
    | Option.none => .error (.keyError "name")
    | some nameVal =>
      let name ← forgeString (some nameVal)
      let payload ← forgeOptJSONMapping (assocGet fields "payload")
      let xHandler ← forgeOptString (assocGet fields "x-handler")
      let xAck ← forgeOptMessageAck (assocGet fields "x-ack")
      pure { name := name, payload := payload, x_handler := xHandler, x_ack := xAck }
  | _ => .error .forgeError

/-- Custom forge of `OneOfMessages`: an explicit `oneOf` list, otherwise the
whole mapping is a single message. -/
def forgeOneOfMessages (data : Py) : Except SpecErr OneOfMessages := do
  match data with
  | .dict fields =>
    match assocGet fields "oneOf" with
    | some (.list items) => (fun ms => ⟨ms⟩) <$> mapExcept forgeMessage items
    | some _ => .error .forgeError
    | Option.none => (fun m => ⟨[m]⟩) <$> forgeMessage (.dict fields)
  | _ => .error .forgeError

/-- Forge an optional `Operation` (generic dataclass forge of its required
`message` field). -/
def forgeOptOperation : Option Py → Except SpecErr (Option Operation)
  | Option.none => .ok Option.none
  | some .none => .ok Option.none
  | some (.dict fields) =>
    match assocGet fields "message" with
    | some msgData => (fun ms => some ⟨ms⟩) <$> forgeOneOfMessages msgData
    | Option.none => .error .forgeError
  | _ => .error .forgeError

/-- Forge the optional WebSockets bindings (generic dataclass forge; the
`bindingVersion` field defaults to `latest`). -/
def forgeOptChannelBindings : Option Py → Except SpecErr (Option ChannelBindings)
  | Option.none => .ok Option.none
  | some .none => .ok Option.none
  | some (.dict fields) =>
    match assocGet fields "ws" with
    | some (.dict wsFields) => do
      let method ← forgeOptString (assocGet wsFields "method")
      let query ← forgeOptJSONMapping (assocGet wsFields "query")
      let headers ← forgeOptJSONMapping (assocGet wsFields "headers")
      let bindingVersion ←
        match assocGet wsFields "bindingVersion" with
        | Option.none => pure "latest"
        | some v => forgeString (some v)
      pure (some ⟨⟨method, query, headers, bindingVersion⟩⟩)
    | _ => .error .forgeError
  | _ => .error .forgeError

/-- Forge the optional channel handlers (generic dataclass forge). -/
def forgeOptChannelHandlers : Option Py → Except SpecErr (Option ChannelHandlers)
  | Option.none => .ok Option.none
  | some .none => .ok Option.none
  | some (.dict fields) => do
    let connect ← forgeOptString (assocGet fields "connect")
    let disconnect ← forgeOptString (assocGet fields "disconnect")
    let error ← forgeOptString (assocGet fields "error")
    pure (some ⟨connect, disconnect, error⟩)
  | _ => .error .forgeError

/-- Custom forge of `Channel` from its extension keys, running the
`__post_init__` publish-handler invariant. -/
def forgeChannel (data : Py) : Except SpecErr Channel := do
  match data with
  | .dict fields =>
    let subscribe ← forgeOptOperation (assocGet fields "subscribe")
    let publish ← forgeOptOperation (assocGet fields "publish")
    let bindings ← forgeOptChannelBindings (assocGet fields "bindings")
    let xHandlers ← forgeOptChannelHandlers (assocGet fields "x-handlers")
    let xSecurity ← forgeOptSecurityRequirements (assocGet fields "x-security")
    mkChannel { subscribe := subscribe, publish := publish, bindings := bindings,
                x_handlers := xHandlers, x_security := xSecurity }
  | _ => .error .forgeError

/-- Forge a `Server` (generic dataclass forge; `security` defaults to the
empty list). -/
def forgeServer (data : Py) : Except SpecErr Server := do
  match data with
  | .dict fields =>
    let url ← forgeString (assocGet fields "url")
    let protocol ← forgeServerProtocol (assocGet fields "protocol")
    let security ←
      match assocGet fields "security" with
      | Option.none => pure []
      | some (.list items) => mapExcept forgeSecurityRequirement items
      | some _ => .error .forgeError
    pure { url := url, protocol := protocol, security := security }
  | _ => .error .forgeError

/-- Forge the `Info` object (generic dataclass forge). -/
def forgeInfo : Option Py → Except SpecErr Info
  | some (.dict fields) => do
    let title ← forgeString (assocGet fields "title")
    let version ← forgeString (assocGet fields "version")
    let description ← forgeOptString (assocGet fields "description")
    pure { title := title, version := version, description := description }
  | _ => .error .forgeError

/-- Custom forge of `Components`: the `securitySchemes` mapping defaults to
the empty mapping. -/
def forgeComponents : Option Py → Except SpecErr Components
  | Option.none => .ok ⟨[]⟩
  | some (.dict fields) =>
    match assocGet fields "securitySchemes" with
    | Option.none => .ok ⟨[]⟩
    | some (.dict schemeFields) =>
      (fun schemes => ⟨schemes⟩) <$> mapExcept (fun kv =>
        (fun s => (kv.1, s)) <$> forgeSecurityScheme kv.2) schemeFields
    | some _ => .error .forgeError
  | _ => .error .forgeError

/-- Forge the channels mapping. -/
def forgeChannels : Option Py → Except SpecErr (List (String × Channel))
  | some (.dict fields) =>
    mapExcept (fun kv => (fun c => (kv.1, c)) <$> forgeChannel kv.2) fields
  | _ => .error .forgeError

/-- Forge the servers mapping (defaults to empty when absent). -/
def forgeServers : Option Py → Except SpecErr (List (String × Server))
  | Option.none => .ok []
  | some (.dict fields) =>
    mapExcept (fun kv => (fun s => (kv.1, s)) <$> forgeServer kv.2) fields
  | _ => .error .forgeError

/-- Generic forge of the top-level `AsyncApiSpec` dataclass, running its
`__post_init__` cross-reference validation. -/
def forgeAsyncApiSpec (data : Py) : Except SpecErr AsyncApiSpec := do
  match data with
  | .dict fields =>
    let asyncapi ← forgeString (assocGet fields "asyncapi")
    let channels ← forgeChannels (assocGet fields "channels")
    let info ← forgeInfo (assocGet fields "info")
    let servers ← forgeServers (assocGet fields "servers")
    let components ← forgeComponents (assocGet fields "components")
    mkAsyncApiSpec { asyncapi := asyncapi, channels := channels, info := info,
                     servers := servers, components := components }
  | _ => .error .forgeError

/-- Shallow embedding of `AsyncApiSpec.from_dict`: forge the typed model and
attach the literal input as the `_raw` attribute. -/
def AsyncApiSpec.from_dict (data : Py) : Except SpecErr AsyncApiSpec := do
  let spec ← forgeAsyncApiSpec data
  pure { spec with raw := some data }

/-! Serialization: `to_dict` returns the attached `_raw` value when present
and otherwise falls back to `dataclasses.asdict`, which re-serializes the
typed model (dropping unmodeled fields).  The `asdict` model maps enum members
to their wire values and `None` to null. -/

/-- Serialize an optional string the way `asdict` renders the field. -/
def pyOfOptString : Option String → Py
  | some s => .str s
  | Option.none => .none

/-- Serialize an `OAuth2Flow` record. -/
def asdictOAuth2Flow (f : OAuth2Flow) : Py :=
  .dict [("scopes", .dict (f.scopes.map (fun kv => (kv.1, Py.str kv.2)))),
         ("authorization_url", pyOfOptString f.authorization_url),
         ("token_url", pyOfOptString f.token_url),
         ("refresh_url", pyOfOptString f.refresh_url)]

/-- Serialize an optional nested dataclass with the given serializer. -/
def pyOfOpt {α : Type} (ser : α → Py) : Option α → Py
  | some a => ser a
  | Option.none => .none

/-- Serialize an `OAuth2Flows` record. -/
def asdictOAuth2Flows (f : OAuth2Flows) : Py :=
  .dict [("implicit", pyOfOpt asdictOAuth2Flow f.implicit),
         ("password", pyOfOpt asdictOAuth2Flow f.password),
         ("client_credentials", pyOfOpt asdictOAuth2Flow f.client_credentials),
         ("authorization_code", pyOfOpt asdictOAuth2Flow f.authorization_code)]

/-- Serialize a `SecuritySchemesType` to its wire value. -/
def securitySchemesTypeValue : SecuritySchemesType → String
  | .userPassword => "userPassword"
  | .apiKey => "apiKey"
  | .x509 => "X509"
  | .symmetricEncryption => "symmetricEncryption"
  | .asymmetricEncryption => "asymmetricEncryption"
  | .httpApiKey => "httpApiKey"
  | .http => "http"
  | .oauth2 => "oauth2"
  | .openIdConnect => "openIdConnect"
  | .plain => "plain"
  | .scramSha256 => "scramSha256"
  | .scramSha512 => "scramSha512"
  | .gssapi => "gssapi"

/-- Serialize an `ApiKeyLocation` to its wire value. -/
def apiKeyLocationValue : ApiKeyLocation → String
  | .user => "user"
  | .password => "password"
  | .query => "query"
  | .header => "header"
  | .cookie => "cookie"

/-- Serialize an `HTTPAuthenticationScheme` to its wire value. -/
def httpAuthenticationSchemeValue : HTTPAuthenticationScheme → String
  | .basic => "basic"
  | .digest => "digest"
  | .bearer => "bearer"

/-- Serialize a `SecurityScheme` record. -/
def asdictSecurityScheme (s : SecurityScheme) : Py :=
  .dict [("type", .str (securitySchemesTypeValue s.type)),
         ("description", pyOfOptString s.description),
         ("name", pyOfOptString s.name),
         ("in_", pyOfOpt (fun l => .str (apiKeyLocationValue l)) s.in_),
         ("scheme", pyOfOpt (fun h => .str (httpAuthenticationSchemeValue h)) s.scheme),
         ("bearer_format", pyOfOptString s.bearer_format),
         ("flows", pyOfOpt asdictOAuth2Flows s.flows),
         ("open_id_connect_url", pyOfOptString s.open_id_connect_url),
         ("x_basic_info_func", pyOfOptString s.x_basic_info_func),
         ("x_bearer_info_func", pyOfOptString s.x_bearer_info_func),
         ("x_token_info_func", pyOfOptString s.x_token_info_func),
         ("x_api_key_info_func", pyOfOptString s.x_api_key_info_func),
         ("x_scope_validate_func", pyOfOptString s.x_scope_validate_func)]

/-- Serialize a security requirement. -/
def asdictSecurityRequirement (r : SecurityRequirement) : Py :=
  .dict (r.map (fun kv => (kv.1, Py.list (kv.2.map Py.str))))

/-- Serialize a `Message` record. -/
def asdictMessage (m : Message) : Py :=
  .dict [("name", .str m.name),
         ("payload", pyOfOpt id m.payload),
         ("x_handler", pyOfOptString m.x_handler),
         ("x_ack", pyOfOpt (fun a => Py.dict [("args", a.args)]) m.x_ack)]

/-- Serialize an `Operation` record. -/
def asdictOperation (op : Operation) : Py :=
  .dict [("message", .dict [("oneOf", .list (op.message.oneOf.map asdictMessage))])]

/-- Serialize a `ChannelBindings` record. -/
def asdictChannelBindings (b : ChannelBindings) : Py :=
  .dict [("ws", .dict [("method", pyOfOptString b.ws.method),
                       ("query", pyOfOpt id b.ws.query),
                       ("headers", pyOfOpt id b.ws.headers),
                       ("bindingVersion", .str b.ws.bindingVersion)])]

/-- Serialize a `ChannelHandlers` record. -/
def asdictChannelHandlers (h : ChannelHandlers) : Py :=
  .dict [("connect", pyOfOptString h.connect),
         ("disconnect", pyOfOptString h.disconnect),
         ("error", pyOfOptString h.error)]

/-- Serialize a `Channel` record. -/
def asdictChannel (c : Channel) : Py :=
  .dict [("subscribe", pyOfOpt asdictOperation c.subscribe),
         ("publish", pyOfOpt asdictOperation c.publish),
         ("bindings", pyOfOpt asdictChannelBindings c.bindings),
         ("x_handlers", pyOfOpt asdictChannelHandlers c.x_handlers),
         ("x_security", pyOfOpt
           (fun reqs => Py.list (reqs.map asdictSecurityRequirement)) c.x_security)]

/-- Serialize a `Server` record. -/
def asdictServer (s : Server) : Py :=
  .dict [("url", .str s.url),
         ("protocol", .str (match s.protocol with
           | .http => "http" | .https => "https" | .ws => "ws" | .wss => "wss")),
         ("security", .list (s.security.map asdictSecurityRequirement))]

/-- Serialize the whole typed document, the `asdict` fallback of `to_dict`. -/
def asdictAsyncApiSpec (spec : AsyncApiSpec) : Py :=
  .dict [("asyncapi", .str spec.asyncapi),
         ("channels", .dict (spec.channels.map (fun kv => (kv.1, asdictChannel kv.2)))),
         ("info", .dict [("title", .str spec.info.title),
                         ("version", .str spec.info.version),
                         ("description", pyOfOptString spec.info.description)]),
         ("servers", .dict (spec.servers.map (fun kv => (kv.1, asdictServer kv.2)))),
         ("components", .dict [("security_schemes",
           .dict (spec.components.security_schemes.map
             (fun kv => (kv.1, asdictSecurityScheme kv.2))))])]

/-- Shallow embedding of `AsyncApiSpec.to_dict`: the literal `_raw` input
when present, otherwise the `asdict` re-serialization. -/
def AsyncApiSpec.to_dict (spec : AsyncApiSpec) : Py :=
  match spec.raw with
  | some r => r
  | Option.none => asdictAsyncApiSpec spec

/-! Validation pipeline (`asynction/validation.py`).  The external JSON-Schema
conformance primitive `jsonschema.validate` is out of this system's scope and
is passed in as a boolean conformance predicate: `jvalidate instance schema`
says whether the instance conforms. -/

/-- Errors of `validate_payload`: the typed payload-validation exception, the
`KeyError` from `schema["type"]` on a schema without a declared type, and the
`IndexError` from `args[0]` on an empty argument tuple. -/
inductive ValidationOutcome where
  | payloadValidationException
  | keyError (key : String)
  | indexError
deriving Repr, DecidableEq

/-- Python's equality test `schema_type == "array"`: only the string compares
equal. -/
def isArrayType : Py → Bool
  | .str s => s = "array"
  | _ => false

/-- Shallow embedding of `validate_payload(args, schema)`: no schema admits
only an empty argument tuple; an `array`-typed schema validates the whole
argument tuple as a single instance; any other declared type admits exactly
one argument, validated directly — where `args[0]` is evaluated
unconditionally. -/
def validate_payload (jvalidate : Py → Py → Bool) (args : List Py)
    (schema : Option Py) : Except ValidationOutcome Unit :=
  match schema with
  | Option.none =>
    if args.isEmpty then .ok () else .error .payloadValidationException
  | some sch =>
    match sch with
    | .dict fields =>
      match assocGet fields "type" with
      | Option.none => .error (.keyError "type")
      | some schemaType =>
        if isArrayType schemaType then
          if jvalidate (.tuple args) sch then .ok ()
          else .error .payloadValidationException
        else
          if args.length > 1 then .error .payloadValidationException
          else
            match args with
            | [] => .error .indexError
            | a :: _ =>
              if jvalidate a sch then .ok () else .error .payloadValidationException
    | _ => .error (.keyError "type")

/-! Security evaluator (`asynction/security.py`).  Requests are the
connect-time HTTP surface (headers and query parameters); the handler registry
populated by `load_handler`'s dynamic imports is a parameter `HandlerEnv` with
one typed table per handler role; Python exceptions are `Except` errors. -/

/-- Structured stand-ins for the messages carried by `SecurityException`s; a
bare `raise SecurityException` carries no message. -/
inductive SecMsg where
  | noChecksPassed
  | missingBasicInfoFunc
  | missingTokenInfoFunc
  | missingApiKeyInfoFunc
  | invalidApiKeyName
  | invalidApiKeyLocation
  | invalidOrMissingHandler
  | missingRequiredScopes (missing : List String)
  | invalidScopes (required : List String) (provided : Py)
deriving Repr

/-- Exceptions of the security and registration pipeline: `securityException`
(optionally with a message), `attributeError` for a failed dynamic handler
import, `keyError` for a missing scheme in the registry, `typeError` and
`valueError` for untyped-operation failures, `stopIteration` for unpacking an
empty requirement, and `bindingsValidation` for the bindings validator. -/
inductive PyExc where
  | securityException (msg : Option SecMsg)
  | attributeError
  | keyError (key : String)
  | typeError
  | valueError
  | stopIteration
  | bindingsValidation
deriving Repr

/-- Claims mapping returned by a successful security check (Python `Mapping`,
kept as an association list). -/
abbrev ClaimsInfo := List (String × Py)

/-- The connect-time HTTP surface of a request: method, headers
(case-insensitively accessed) and query parameters. -/
structure Request where
  method : String := "GET"
  headers : List (String × String) := []
  args : List (String × String) := []

/-- Case-insensitive header access, as Flask header mappings provide. -/
def Request.headerGet (r : Request) (k : String) : Option String :=
  (r.headers.find? (fun kv => pyStrLower kv.1 = pyStrLower k)).map (fun kv => kv.2)

/-- Query-parameter access. -/
def Request.argGet (r : Request) (k : String) : Option String :=
  (r.args.find? (fun kv => kv.1 = k)).map (fun kv => kv.2)

/-- A scope-validation function `(requiredScopes, tokenScopes) -> bool`, which
may itself raise. -/
abbrev ScopeValidateFunc := List String → Py → Except PyExc Bool

/-- A token-info function for oauth2 (`(token) -> Optional[Mapping]`). -/
abbrev TokenInfoFunc := String → Option ClaimsInfo

/-- A basic-info function (`(username, password, requiredScopes)`). -/
abbrev BasicInfoFunc := String → String → List String → Option ClaimsInfo

/-- An api-key-info function (`(token, requiredScopes, bearerFormat)`). -/
abbrev APIKeyInfoFunc := String → List String → Option String → Option ClaimsInfo

/-- The handler registry: one table per handler role, standing for the
modules reachable by `load_handler`'s dynamic import. -/
structure HandlerEnv where
  basicInfoFuncs : List (String × BasicInfoFunc) := []
  tokenInfoFuncs : List (String × TokenInfoFunc) := []
  apiKeyInfoFuncs : List (String × APIKeyInfoFunc) := []
  scopeValidateFuncs : List (String × ScopeValidateFunc) := []
  connectHandlers : List (String × (Request → Except PyExc Unit)) := []

/-- An unpacked security requirement: `(schemeName, scopes)`. -/
abbrev InternalSecurityRequirement := String × List String

/-- Result of one internal security check: an optional claims mapping and an
optional error message. -/
abbrev InternalSecurityCheckResponse := Option ClaimsInfo × Option SecMsg

/-- One internal security check. -/
abbrev InternalSecurityCheck := Request → Except PyExc InternalSecurityCheckResponse

/-- Shallow embedding of `unpack_security_requirement`: the first item of the
requirement mapping; Python's `next(iter(...))` raises `StopIteration` on an
empty mapping. -/
def unpack_security_requirement (r : SecurityRequirement) :
    Except PyExc InternalSecurityRequirement :=
  match r with
  | [] => .error .stopIteration
  | kv :: _ => .ok kv

/-- Shallow embedding of `unpack_security_requirements`. -/
def unpack_security_requirements (rs : List SecurityRequirement) :
    Except PyExc (List InternalSecurityRequirement) :=
  mapExcept unpack_security_requirement rs

/-- Python's `s.split(None, 1)`: strip leading whitespace, take the first
whitespace-free token, strip the whitespace run after it; yields the token
and the remainder when the remainder is non-empty, mirroring the two-element
unpacking in `extract_auth_header` (any other shape raises there). -/
def pySplitWhitespaceOnce (s : String) : Option (String × String) :=
  let cs := s.toList.dropWhile isPyWs
  let tok := cs.takeWhile (fun c => !isPyWs c)
  let rest := (cs.dropWhile (fun c => !isPyWs c)).dropWhile isPyWs
  if tok = [] then Option.none
  else if rest = [] then Option.none
  else some (String.mk tok, String.mk rest)

/-- Shallow embedding of `extract_auth_header`: an absent or empty
`Authorization` header yields nothing; a header that does not split into two
parts raises a `SecurityException`. -/
def extract_auth_header (request : Request) :
    Except PyExc (Option (String × String)) :=
  match request.headerGet "Authorization" with
  | Option.none => .ok Option.none
  | some authorization =>
    if authorization = "" then .ok Option.none
    else
      match pySplitWhitespaceOnce authorization with
      | some lr => .ok (some lr)
      | Option.none => .error (.securityException Option.none)

/-- Value of one base64 alphabet character. -/
def b64Val (c : Char) : Option Nat :=
  if 'A' ≤ c && c ≤ 'Z' then some (c.toNat - 65)
  else if 'a' ≤ c && c ≤ 'z' then some (c.toNat - 97 + 26)
  else if '0' ≤ c && c ≤ '9' then some (c.toNat - 48 + 52)
  else if c = '+' then some 62
  else if c = '/' then some 63
  else Option.none

/-- Decode one base64 quad into its one to three bytes, honouring padding. -/
def b64Quad : Char → Char → Char → Char → Option (List Nat)
  | a, b, c, d => do
    let va ← b64Val a
    let vb ← b64Val b
    if c = '=' then
      if d = '=' then some [va * 4 + vb / 16] else Option.none
    else do
      let vc ← b64Val c
      if d = '=' then some [va * 4 + vb / 16, (vb % 16) * 16 + vc / 4]
      else do
        let vd ← b64Val d
        some [va * 4 + vb / 16, (vb % 16) * 16 + vc / 4, (vc % 4) * 64 + vd]

/-- Decode a base64 character stream quad by quad; a leftover of fewer than
four characters is a padding error. -/
def b64DecodeChunks : List Char → Option (List Nat)
  | [] => some []
  | a :: b :: c :: d :: rest => do
    let bytes ← b64Quad a b c d
    let more ← b64DecodeChunks rest
    some (bytes ++ more)
  | _ => Option.none

/-- Model of `base64.b64decode(s).decode("latin1")`: characters outside the
alphabet are discarded (as `b64decode` does without validation), the rest is
decoded with padding, and each byte becomes the latin1 character of its
value. -/
def b64decode_latin1 (s : String) : Option String :=
  (b64DecodeChunks (s.toList.filter (fun c => (b64Val c).isSome || c = '='))).map
    (fun bytes => String.mk (bytes.map Char.ofNat))

/-- Split a string at the first occurrence of the given character, as
Python's `split(sep, 1)` when a separator is present. -/
def splitFirstChar (sep : Char) (s : String) : Option (String × String) :=
  let pre := s.toList.takeWhile (fun c => c ≠ sep)
  match s.toList.dropWhile (fun c => c ≠ sep) with
  | _ :: rest => some (String.mk pre, String.mk rest)
  | [] => Option.none

/-- Parse an HTTP authentication scheme value, as the Python enum constructor
`HTTPAuthenticationScheme(value)` does; an unknown value raises
`ValueError`. -/
def parseHTTPAuthScheme (s : String) : Option HTTPAuthenticationScheme :=
  if s = "basic" then some .basic
  else if s = "digest" then some .digest
  else if s = "bearer" then some .bearer
  else Option.none

/-- Shallow embedding of `validate_basic`: extract the authorization header,
require a `basic` scheme (an unknown scheme is a plain `ValueError`!), decode
the credentials, and look the user up; an inapplicable header means skip. -/
def validate_basic (request : Request) (basic_info_func : BasicInfoFunc)
    (required_scopes : List String) : Except PyExc (Option ClaimsInfo) := do
  match ← extract_auth_header request with
  | Option.none => pure Option.none
  | some (authType, userPass) =>
    if authType = "" || userPass = "" then
      Except.error (PyExc.securityException Option.none)
    else
      match parseHTTPAuthScheme (pyStrLower authType) with
      | Option.none => Except.error PyExc.valueError
      | some parsed =>
        if parsed ≠ HTTPAuthenticationScheme.basic then pure Option.none
        else
          match (b64decode_latin1 userPass).bind (splitFirstChar ':') with
          | Option.none => Except.error (PyExc.securityException Option.none)
          | some (username, secret) =>
            if username = "" || secret = "" then
              Except.error (PyExc.securityException Option.none)
            else
              match basic_info_func username secret required_scopes with
              | Option.none => Except.error (PyExc.securityException Option.none)
              | some token_info => pure (some token_info)

/-- Shallow embedding of `validate_authorization_header`: bearer-style
extraction dispatching to a token-info function. -/
def validate_authorization_header (request : Request)
    (token_info_func : TokenInfoFunc) : Except PyExc (Option ClaimsInfo) := do
  match ← extract_auth_header request with
  | Option.none => pure Option.none
  | some (authType, token) =>
    if authType = "" || token = "" then
      Except.error (PyExc.securityException Option.none)
    else if pyStrLower authType ≠ "bearer" then pure Option.none
    else
      match token_info_func token with
      | Option.none => Except.error (PyExc.securityException Option.none)
      | some token_info => pure (some token_info)

/-- Shallow embedding of `validate_api_key`: bearer-style extraction
dispatching to an api-key-info function with the required scopes and bearer
format. -/
def validate_api_key (request : Request) (api_key_info_func : APIKeyInfoFunc)
    (required_scopes : List String) (bearer_format : Option String) :
    Except PyExc (Option ClaimsInfo) := do
  match ← extract_auth_header request with
  | Option.none => pure Option.none
  | some (authType, token) =>
    if authType = "" || token = "" then
      Except.error (PyExc.securityException Option.none)
    else if pyStrLower authType ≠ "bearer" then pure Option.none
    else
      match api_key_info_func token required_scopes bearer_format with
      | Option.none => Except.error (PyExc.securityException Option.none)
      | some token_info => pure (some token_info)

/-- Elements contributed by `set(token_scopes)` that can compare equal to the
required scope strings: the characters of a string (each as a one-character
string), the string elements of a list/tuple/set, the keys of a dict;
iterating a scalar raises `TypeError`. -/
def pyScopeElems : Py → Except PyExc (List String)
  | .str s => .ok (s.toList.map (fun c => String.mk [c]))
  | .list items | .tuple items | .set items =>
    .ok (items.filterMap (fun v =>
      match v with
      | Py.str s => some s
      | _ => Option.none))
  | .dict fields => .ok (fields.map (fun kv => kv.1))
  | _ => .error PyExc.typeError

/-- Shallow embedding of `validate_scopes`, the default scope validator:
compute the set difference of required and provided scopes and raise a
`SecurityException` naming the missing ones when it is non-empty. -/
def validate_scopes (required_scopes : List String) (token_scopes : Py) :
    Except PyExc Bool := do
  let elems ← pyScopeElems token_scopes
  let missing := (required_scopes.filter (fun s => !(elems.contains s))).eraseDups
  if missing ≠ [] then
    Except.error (PyExc.securityException (some (SecMsg.missingRequiredScopes missing)))
  else
    pure missing.isEmpty

/-- The provided scopes read off a claims mapping:
`token_info.get("scope", token_info.get("scopes", ""))`. -/
def tokenScopesOf (token_info : ClaimsInfo) : Py :=
  match assocGet token_info "scope" with
  | some v => v
  | Option.none =>
    match assocGet token_info "scopes" with
    | some v => v
    | Option.none => .str ""

/-- Shallow embedding of `load_scope_validate_func`: a configured (truthy)
scope-validator reference is imported, otherwise the default
`validate_scopes` is used; a failed import is an `AttributeError`. -/
def load_scope_validate_func (env : HandlerEnv) (scheme : SecurityScheme) :
    Except PyExc ScopeValidateFunc :=
  match scheme.x_scope_validate_func with
  | some fid =>
    if fid = "" then .ok validate_scopes
    else
      match assocGet env.scopeValidateFuncs fid with
      | some f => .ok f
      | Option.none => .error PyExc.attributeError
  | Option.none => .ok validate_scopes

/-- Shallow embedding of `load_basic_info_func`. -/
def load_basic_info_func (env : HandlerEnv) (scheme : SecurityScheme) :
    Except PyExc BasicInfoFunc :=
  match scheme.x_basic_info_func with
  | some fid =>
    match assocGet env.basicInfoFuncs fid with
    | some f => .ok f
    | Option.none => .error PyExc.attributeError
  | Option.none => .error (PyExc.securityException (some SecMsg.missingBasicInfoFunc))

/-- Shallow embedding of `load_token_info_func`. -/
def load_token_info_func (env : HandlerEnv) (scheme : SecurityScheme) :
    Except PyExc TokenInfoFunc :=
  match scheme.x_token_info_func with
  | some fid =>
    match assocGet env.tokenInfoFuncs fid with
    | some f => .ok f
    | Option.none => .error PyExc.attributeError
  | Option.none => .error (PyExc.securityException (some SecMsg.missingTokenInfoFunc))

/-- Shallow embedding of `load_api_key_info_func`: reads the
`x-apiKeyInfoFunc` reference; without one it raises the missing-api-key-info
security exception. -/
def load_api_key_info_func (env : HandlerEnv) (scheme : SecurityScheme) :
    Except PyExc APIKeyInfoFunc :=
  match scheme.x_api_key_info_func with
  | some fid =>
    match assocGet env.apiKeyInfoFuncs fid with
    | some f => .ok f
    | Option.none => .error PyExc.attributeError
  | Option.none => .error (PyExc.securityException (some SecMsg.missingApiKeyInfoFunc))

/-- The inner `http_security_check` closure of the basic branch of
`build_http_security_check`. -/
def http_security_check (basic_info_func : BasicInfoFunc)
    (scope_validate_func : ScopeValidateFunc) (required_scopes : List String) :
    InternalSecurityCheck := fun request => do
  match ← validate_basic request basic_info_func required_scopes with
  | Option.none => pure (Option.none, Option.none)
  | some token_info =>
    let token_scopes := tokenScopesOf token_info
    if ← scope_validate_func required_scopes token_scopes then
      pure (some token_info, Option.none)
    else
      pure (Option.none, some (SecMsg.invalidScopes required_scopes token_scopes))

/-- The inner `http_bearer_security_check` closure of the bearer branch of
`build_http_security_check`. -/
def http_bearer_security_check (api_key_info_func : APIKeyInfoFunc)
    (scope_validate_func : ScopeValidateFunc) (required_scopes : List String)
    (bearer_format : Option String) : InternalSecurityCheck := fun request => do
  match ← validate_api_key request api_key_info_func required_scopes bearer_format with
  | Option.none => pure (Option.none, Option.none)
  | some token_info =>
    let token_scopes := tokenScopesOf token_info
    if ← scope_validate_func required_scopes token_scopes then
      pure (some token_info, Option.none)
    else
      pure (Option.none, some (SecMsg.invalidScopes required_scopes token_scopes))

/-- Shallow embedding of `build_http_security_check`: the `basic` branch uses
the basic-info function; the `bearer` branch loads the api-key-info function
(via `load_api_key_info_func`, reading `x-apiKeyInfoFunc`); any other scheme
yields no check. -/
def build_http_security_check (env : HandlerEnv)
    (requirement : InternalSecurityRequirement) (scheme : SecurityScheme) :
    Except PyExc (Option InternalSecurityCheck) := do
  let required_scopes := requirement.2
  match scheme.scheme with
  | some HTTPAuthenticationScheme.basic => do
    let basic_info_func ← load_basic_info_func env scheme
    let scope_validate_func ← load_scope_validate_func env scheme
    pure (some (http_security_check basic_info_func scope_validate_func
      required_scopes))
  | some HTTPAuthenticationScheme.bearer => do
    let api_key_info_func ← load_api_key_info_func env scheme
    let scope_validate_func ← load_scope_validate_func env scheme
    let bearer_format := scheme.bearer_format
    pure (some (http_bearer_security_check api_key_info_func scope_validate_func
      required_scopes bearer_format))
  | _ => pure Option.none

/-- Minimal model of `SimpleCookie` parsing in `get_cookie_value`: split the
raw cookie data on semicolons, trim surrounding whitespace, split each
segment at its first equals sign, and return the value under the given
name. -/
def get_cookie_value (cookies : String) (name : String) : Option String :=
  ((((splitCharsOn ';' cookies.toList).filterMap
      (fun seg => splitFirstChar '=' (String.mk (trimChars seg))))).find?
    (fun kv => kv.1 = name)).map (fun kv => kv.2)

/-- Python's membership test of an `ApiKeyLocation` enum member in the list
of plain strings `query`/`header`/`cookie`: a plain `Enum` member never
equals a string, so the test is false for every member (and for `None`). -/
def apiKeyLocationInStrings (loc : Option ApiKeyLocation) : Bool :=
  match loc with
  | _ => false

/-- Python's equality test of an `ApiKeyLocation` enum member against a plain
string: always false for a plain `Enum`. -/
def apiKeyLocationEqString (loc : Option ApiKeyLocation) (s : String) : Bool :=
  match loc, s with
  | _, _ => false

/-- Shallow embedding of `build_http_api_key_security_check`.  Because the
`in` field holds an `ApiKeyLocation` enum member while the location test
compares it against plain strings, the build-time location check fails for
every scheme (after the info-function loads and the name check). -/
def build_http_api_key_security_check (env : HandlerEnv)
    (requirement : InternalSecurityRequirement) (scheme : SecurityScheme) :
    Except PyExc (Option InternalSecurityCheck) := do
  let api_key_info_func ← load_api_key_info_func env scheme
  let scope_validate_func ← load_scope_validate_func env scheme
  let required_scopes := requirement.2
  let api_key_in := scheme.in_
  match scheme.name with
  | Option.none => throw (PyExc.securityException (some SecMsg.invalidApiKeyName))
  | some api_key_name =>
    if !(apiKeyLocationInStrings api_key_in) then
      throw (PyExc.securityException (some SecMsg.invalidApiKeyLocation))
    pure (some (fun request => do
      let api_key : Option String :=
        if apiKeyLocationEqString api_key_in "query" then
          request.argGet api_key_name
        else if apiKeyLocationEqString api_key_in "header" then
          request.headerGet api_key_name
        else if apiKeyLocationEqString api_key_in "cookie" then
          match request.headerGet "Cookie" with
          | some cookiesList =>
            if cookiesList = "" then Option.none
            else get_cookie_value cookiesList api_key_name
          | Option.none => Option.none
        else Option.none
      match api_key with
      | Option.none => pure (Option.none, Option.none)
      | some key =>
        match api_key_info_func key required_scopes Option.none with
        | Option.none => pure (Option.none, Option.none)
        | some token_info =>
          let token_scopes := tokenScopesOf token_info
          if ← scope_validate_func required_scopes token_scopes then
            pure (some token_info, Option.none)
          else
            pure (Option.none, some (SecMsg.invalidScopes required_scopes token_scopes))))

/-- The inner `oauth2_security_check` closure of
`build_oauth2_security_check`: the scope validator is loaded inside the
check, after the authorization-header validation. -/
def oauth2_security_check (env : HandlerEnv) (scheme : SecurityScheme)
    (token_info_func : TokenInfoFunc) (required_scopes : List String) :
    InternalSecurityCheck := fun request => do
  let token_info_opt ← validate_authorization_header request token_info_func
  let scope_validate_func ← load_scope_validate_func env scheme
  match token_info_opt with
  | Option.none => pure (Option.none, Option.none)
  | some token_info =>
    let token_scopes := tokenScopesOf token_info
    if ← scope_validate_func required_scopes token_scopes then
      pure (some token_info, Option.none)
    else
      Except.error (PyExc.securityException
        (some (SecMsg.invalidScopes required_scopes token_scopes)))

/-- Shallow embedding of `build_oauth2_security_check` proper. -/
def build_oauth2_security_check (env : HandlerEnv)
    (requirement : InternalSecurityRequirement) (scheme : SecurityScheme) :
    Except PyExc (Option InternalSecurityCheck) := do
  let token_info_func ← load_token_info_func env scheme
  let required_scopes := requirement.2
  pure (some (oauth2_security_check env scheme token_info_func required_scopes))

/-- The `_BUILDER_DISPATCH` table mapping scheme types to check builders. -/
def builder_dispatch (t : SecuritySchemesType) :
    Option (HandlerEnv → InternalSecurityRequirement → SecurityScheme →
      Except PyExc (Option InternalSecurityCheck)) :=
  match t with
  | SecuritySchemesType.http => some build_http_security_check
  | SecuritySchemesType.oauth2 => some build_oauth2_security_check
  | SecuritySchemesType.httpApiKey => some build_http_api_key_security_check
  | _ => Option.none

/-- The check-building loop of `build_security_handler`: look each
requirement's scheme up (a missing scheme is a `KeyError`), dispatch on its
type, and keep the built checks in requirement order, skipping unsupported
types and builders that yield no check. -/
def build_security_checks (env : HandlerEnv)
    (security_schemes : List (String × SecurityScheme)) :
    List InternalSecurityRequirement → Except PyExc (List InternalSecurityCheck)
  | [] => .ok []
  | requirement :: rest => do
    match assocGet security_schemes requirement.1 with
    | Option.none => Except.error (PyExc.keyError requirement.1)
    | some scheme =>
      match builder_dispatch scheme.type with
      | Option.none => build_security_checks env security_schemes rest
      | some builder => do
        match ← builder env requirement scheme with
        | Option.none => build_security_checks env security_schemes rest
        | some check => do
          let checks ← build_security_checks env security_schemes rest
          pure (check :: checks)

/-- The evaluation loop of the handler returned by `build_security_handler`:
checks run in list order; a truthy error raises, truthy claims are returned
immediately, anything else moves on; exhaustion raises the no-checks-passed
security exception. -/
def security_handler_run (checks : List InternalSecurityCheck)
    (request : Request) : Except PyExc ClaimsInfo :=
  match checks with
  | [] => .error (.securityException (some SecMsg.noChecksPassed))
  | check :: rest => do
    let result ← check request
    match result.2 with
    | some e => Except.error (PyExc.securityException (some e))
    | Option.none =>
      match result.1 with
      | some m =>
        if m.isEmpty then security_handler_run rest request else pure m
      | Option.none => security_handler_run rest request

/-- Shallow embedding of `build_security_handler`: build the checks and close
over them with the evaluation loop. -/
def build_security_handler (env : HandlerEnv)
    (security : List InternalSecurityRequirement)
    (security_schemes : List (String × SecurityScheme)) :
    Except PyExc (Request → Except PyExc ClaimsInfo) := do
  let checks ← build_security_checks env security_schemes security
  pure (security_handler_run checks)

/-- Shallow embedding of `security_handler_factory`: unpack the requirements
and build the handler the returned decorator closes over. -/
def security_handler_factory (env : HandlerEnv)
    (security : List SecurityRequirement)
    (security_schemes : List (String × SecurityScheme)) :
    Except PyExc (Request → Except PyExc ClaimsInfo) := do
  let unpacked ← unpack_security_requirements security
  build_security_handler env unpacked security_schemes

/-- Application of the decorator produced by `security_handler_factory`: run
the security handler on the current request and then the wrapped handler,
forwarding the claims as extra keyword arguments. -/
def with_security (security_handler : Request → Except PyExc ClaimsInfo)
    (handler : Request → Except PyExc Unit) : Request → Except PyExc Unit :=
  fun request => do
    let _security_args ← security_handler request
    handler request

/-! Handler registration (`asynction/server.py`): the connect-handler part of
`AsynctionSocketIO._register_namespace_handlers`, which decides whether a
connect handler is registered for the namespace and with which wrappers. -/

/-- The `_noop_handler` placeholder. -/
def noop_handler : Request → Except PyExc Unit := fun _ => pure ()

/-- Shallow embedding of `validate_request_bindings`: check the expected
method, then the headers schema against the lower-cased header mapping, then
the query schema against the query-parameter mapping. -/
def validate_request_bindings (jvalidate : Py → Py → Bool) (request : Request)
    (bindings : Option ChannelBindings) : Except PyExc Unit := do
  match bindings with
  | Option.none => pure ()
  | some b =>
    match b.ws.method with
    | some m =>
      if request.method ≠ m then throw PyExc.bindingsValidation else pure ()
    | Option.none => pure ()
    match b.ws.headers with
    | some headersSchema =>
      if jvalidate
          (Py.dict (request.headers.map (fun kv => (pyStrLower kv.1, Py.str kv.2))))
          headersSchema then pure ()
      else throw PyExc.bindingsValidation
    | Option.none => pure ()
    match b.ws.query with
    | some querySchema =>
      if jvalidate (Py.dict (request.args.map (fun kv => (kv.1, Py.str kv.2))))
          querySchema then pure ()
      else throw PyExc.bindingsValidation
    | Option.none => pure ()

/-- Application of the decorator produced by `bindings_validator_factory`. -/
def with_bindings_validation (jvalidate : Py → Py → Bool)
    (bindings : Option ChannelBindings) (handler : Request → Except PyExc Unit) :
    Request → Except PyExc Unit :=
  fun request => do
    validate_request_bindings jvalidate request bindings
    handler request

/-- Result of connect-handler registration for one namespace: whether a
connect handler was registered at all, whether the security wrapper was
applied, and the behavior of the registered handler on a connection
attempt. -/
structure ConnectRegistration where
  registered : Bool
  securityApplied : Bool
  behavior : Request → Except PyExc Unit

/-- Whether a registration admits a connection attempt: either nothing is
registered (the transport accepts by default) or the registered handler runs
without raising. -/
def ConnectRegistration.admits (reg : ConnectRegistration) (request : Request) : Prop :=
  reg.registered = false ∨ reg.behavior request = .ok ()

/-- Loading of the user connect handler: when the channel declares a connect
reference it is imported (a failed import is an `AttributeError`) and, with
validation enabled, wrapped with bindings validation. -/
def load_connect_handler (env : HandlerEnv) (jvalidate : Py → Py → Bool)
    (validation : Bool) (channel_handlers : Option ChannelHandlers)
    (channel_bindings : Option ChannelBindings) :
    Except PyExc (Option (Request → Except PyExc Unit)) :=
  match channel_handlers with
  | some ch =>
    match ch.connect with
    | some cid =>
      match assocGet env.connectHandlers cid with
      | some h =>
        if validation then
          .ok (some (with_bindings_validation jvalidate channel_bindings h))
        else .ok (some h)
      | Option.none => .error PyExc.attributeError
    | Option.none => .ok Option.none
  | Option.none => .ok Option.none

/-- Shallow embedding of the connect part of `_register_namespace_handlers`:
channel security, when present, is used instead of the server security; a
declared connect handler is loaded and optionally wrapped with bindings
validation; a truthy effective security list wraps the handler (even the
no-op one) with the security decorator; the handler is registered unless it
is still the no-op placeholder. -/
def register_namespace_connect (env : HandlerEnv) (jvalidate : Py → Py → Bool)
    (validation : Bool) (security_schemes : List (String × SecurityScheme))
    (server_security : List SecurityRequirement)
    (channel_handlers : Option ChannelHandlers)
    (channel_bindings : Option ChannelBindings)
    (channel_security : Option (List SecurityRequirement)) :
    Except PyExc ConnectRegistration := do
  let security :=
    match channel_security with
    | some cs => cs
    | Option.none => server_security
  let loaded ← load_connect_handler env jvalidate validation
    channel_handlers channel_bindings
  match security with
  | [] =>
    match loaded with
    | some h =>
      pure { registered := true, securityApplied := false, behavior := h }
    | Option.none =>
      pure { registered := false, securityApplied := false, behavior := noop_handler }
  | _ :: _ => do
    let sec_handler ← security_handler_factory env security security_schemes
    let base :=
      match loaded with
      | some h => h
      | Option.none => noop_handler
    pure { registered := true, securityApplied := true,
           behavior := with_security sec_handler base }

/-- An oauth2 scheme whose single implicit flow declares the scopes `a` and
`b`, in that insertion order. -/
def oauth2SchemeAB : SecurityScheme :=
  { type := SecuritySchemesType.oauth2,
    flows := some { implicit := some { scopes := [("a", "A"), ("b", "B")],
                                       authorization_url := some "https://auth" } },
    x_token_info_func := some "tests.token_info" }

/-- A raw document declaring the `oauth2SchemeAB` scheme and a server
requirement asking for the declared scopes `b` and `a`. -/
def specDocBA : Py :=
  Py.dict
    [("asyncapi", .str "2.3.0"),
     ("info", .dict [("title", .str "t"), ("version", .str "1")]),
     ("channels", .dict []),
     ("servers", .dict
       [("dev", .dict
         [("url", .str "localhost"),
          ("protocol", .str "ws"),
          ("security", .list [.dict [("oauth2", .list [.str "b", .str "a"])]])])]),
     ("components", .dict
       [("securitySchemes", .dict
         [("oauth2", .dict
           [("type", .str "oauth2"),
            ("flows", .dict
              [("implicit", .dict
                [("authorizationUrl", .str "https://auth"),
                 ("scopes", .dict [("a", .str "A"), ("b", .str "B")])])]),
            ("x-tokenInfoFunc", .str "tests.token_info")])])])]

/-- Registry for C4: the referenced bearer-info function exists, but no
api-key-info function is registered. -/
def envBearerOnly : HandlerEnv :=
  { apiKeyInfoFuncs := [] }

/-- An http/bearer scheme configured, as documented and as the repository's
tests do, with only `x-bearerInfoFunc`. -/
def bearerOnlyScheme : SecurityScheme :=
  { type := SecuritySchemesType.http,
    scheme := some HTTPAuthenticationScheme.bearer,
    bearer_format := some "test",
    x_bearer_info_func := some "tests.fixtures.handlers.bearer_info" }

/-- An http/bearer scheme carrying both extension fields, with the two
handler identities registered under different roles so the consulted field is
observable. -/
def bearerBothScheme : SecurityScheme :=
  { type := SecuritySchemesType.http,
    scheme := some HTTPAuthenticationScheme.bearer,
    bearer_format := some "test",
    x_bearer_info_func := some "bearer_func",
    x_api_key_info_func := some "api_key_func" }

/-- Registry for the both-fields variant: the api-key table answers with
claims that identify which function ran. -/
def envBearerBoth : HandlerEnv :=
  { apiKeyInfoFuncs :=
      [("api_key_func", fun _ _ _ => some [("via", Py.str "apiKeyInfoFunc")])] }

/-- A concrete http/basic scheme for the security witnesses. -/
def basicSchemeW : SecurityScheme :=
  { type := SecuritySchemesType.http,
    scheme := some HTTPAuthenticationScheme.basic,
    x_basic_info_func := some "tests.basic_info" }

/-- A concrete oauth2 scheme without scope requirements. -/
def oauth2SchemeW : SecurityScheme :=
  { type := SecuritySchemesType.oauth2,
    flows := some { implicit := some { scopes := [("a", "A")],
                                       authorization_url := some "https://auth" } },
    x_token_info_func := some "tests.token_info" }

/-- The registry backing the security witnesses. -/
def envW : HandlerEnv :=
  { basicInfoFuncs := [("tests.basic_info", fun _ _ _ => some [("sub", Py.str "u")])],
    tokenInfoFuncs := [("tests.token_info", fun _ => some [("sub", Py.str "tok")])] }

/-- A request carrying a bearer authorization header. -/
def requestBearerW : Request := { headers := [("Authorization", "bearer mytoken")] }

/-- The registry for the oauth2 scope-enforcement witness: the token lookup
succeeds, returning claims scoped to `write` only. -/
def envC6 : HandlerEnv :=
  { tokenInfoFuncs :=
      [("tests.token_info", fun _ => some [("scopes", Py.list [Py.str "write"])])] }

/-- An oauth2 scheme declaring the scopes `read` and `write`. -/
def oauth2SchemeC6 : SecurityScheme :=
  { type := SecuritySchemesType.oauth2,
    flows := some { implicit := some { scopes := [("read", "R"), ("write", "W")],
                                       authorization_url := some "https://auth" } },
    x_token_info_func := some "tests.token_info" }

/-! Predicates describing the documents on which `deep_resolve` passes
values through unchanged. -/

/-- Whether the Python membership test `"$ref" in v` evaluates to `False`
without raising: a dict without a `$ref` key, a string not containing `$ref`
as a substring, a container without the `$ref` string element; false for
scalars, whose membership test raises. -/
def itemOk : Py → Bool
  | .dict fields => fields.all (fun kv => !(kv.1 = "$ref" : Bool))
  | .str s => !(charsInfixOf "$ref".toList s.toList)
  | .list items => items.all (fun v => !(isRefMarker v))
  | .tuple items => items.all (fun v => !(isRefMarker v))
  | .set items => items.all (fun v => !(isRefMarker v))
  | _ => false

mutual

/-- Whether every value sitting at a dict-value or container-item position of
the tree passes the untyped `$ref` membership test with `False`; the root
itself is not tested, matching `deep_resolve`. -/
def safeTree : Py → Bool
  | .dict fields => safeFields fields
  | .list items => safeItems items
  | .tuple items => safeItems items
  | .set items => safeItems items
  | _ => true

/-- Item condition over dict entries. -/
def safeFields : List (String × Py) → Bool
  | [] => true
  | kv :: rest => itemOk kv.2 && safeTree kv.2 && safeFields rest

/-- Item condition over container elements. -/
def safeItems : List Py → Bool
  | [] => true
  | v :: rest => itemOk v && safeTree v && safeItems rest

end

mutual

/-- Nesting depth of a Python value (scalars have depth one), bounding the
recursion depth `deep_resolve` needs. -/
def pyDepth : Py → Nat
  | .dict fields => 1 + depthFields fields
  | .list items => 1 + depthItems items
  | .tuple items => 1 + depthItems items
  | .set items => 1 + depthItems items
  | _ => 1

/-- Depth over dict entries. -/
def depthFields : List (String × Py) → Nat
  | [] => 0
  | kv :: rest => max (pyDepth kv.2) (depthFields rest)

/-- Depth over container elements. -/
def depthItems : List Py → Nat
  | [] => 0
  | v :: rest => max (pyDepth v) (depthItems rest)

end

/-! Theorems. -/

/-- A value whose item test is benign makes `refIn` return `ok false`. -/
theorem itemOk_refIn {v : Py} (h : itemOk v = true) : refIn v = .ok false := by
  cases v with
  | dict fields =>
    simp only [itemOk, List.all_eq_true] at h
    simp only [refIn, Except.ok.injEq]
    rw [List.any_eq_false]
    intro kv hkv
    simpa using h kv hkv
  | str s =>
    simp only [itemOk] at h
    simp only [refIn, Except.ok.injEq]
    simpa using h
  | list items =>
    simp only [itemOk, List.all_eq_true] at h
    simp only [refIn, Except.ok.injEq]
    rw [List.any_eq_false]
    intro v hv
    simpa using h v hv
  | tuple items =>
    simp only [itemOk, List.all_eq_true] at h
    simp only [refIn, Except.ok.injEq]
    rw [List.any_eq_false]
    intro v hv
    simpa using h v hv
  | set items =>
    simp only [itemOk, List.all_eq_true] at h
    simp only [refIn, Except.ok.injEq]
    rw [List.any_eq_false]
    intro v hv
    simpa using h v hv
  | int n => simp [itemOk] at h
  | bool b => simp [itemOk] at h
  | none => simp [itemOk] at h

mutual

/-- Pass-through of `deep_resolve` on safe trees with enough fuel. -/
theorem deep_resolve_safe (root : Py) (fuel : Nat) (t : Py)
    (hs : safeTree t = true) (hd : pyDepth t ≤ fuel) :
    deep_resolve root fuel t = .ok t := by
  match fuel, t with
  | fuel + 1, Py.dict fields =>
    have hfs : safeFields fields = true := by simpa [safeTree] using hs
    have hdf : depthFields fields ≤ fuel := by
      have heq : pyDepth (Py.dict fields) = 1 + depthFields fields := by
        simp [pyDepth]
      omega
    have hmap := deep_resolve_fields_safe root fuel fields hfs hdf
    simp only [deep_resolve, hmap, Except.map_ok]
  | fuel + 1, Py.list items =>
    have his : safeItems items = true := by simpa [safeTree] using hs
    have hdi : depthItems items ≤ fuel := by
      have heq : pyDepth (Py.list items) = 1 + depthItems items := by
        simp [pyDepth]
      omega
    have hmap := deep_resolve_items_safe root fuel items his hdi
    simp only [deep_resolve, hmap, Except.map_ok]
  | fuel + 1, Py.tuple items =>
    have his : safeItems items = true := by simpa [safeTree] using hs
    have hdi : depthItems items ≤ fuel := by
      have heq : pyDepth (Py.tuple items) = 1 + depthItems items := by
        simp [pyDepth]
      omega
    have hmap := deep_resolve_items_safe root fuel items his hdi
    simp only [deep_resolve, hmap, Except.map_ok]
  | fuel + 1, Py.set items =>
    have his : safeItems items = true := by simpa [safeTree] using hs
    have hdi : depthItems items ≤ fuel := by
      have heq : pyDepth (Py.set items) = 1 + depthItems items := by
        simp [pyDepth]
      omega
    have hmap := deep_resolve_items_safe root fuel items his hdi
    simp only [deep_resolve, hmap, Except.map_ok]
  | fuel + 1, Py.str s => simp [deep_resolve]
  | fuel + 1, Py.int n => simp [deep_resolve]
  | fuel + 1, Py.bool b => simp [deep_resolve]
  | fuel + 1, Py.none => simp [deep_resolve]
  | 0, t =>
    exact absurd hd (by
      have : 1 ≤ pyDepth t := by cases t <;> simp [pyDepth]
      omega)
termination_by (fuel, sizeOf t)

/-- Pass-through of the per-entry map over dict fields. -/
theorem deep_resolve_fields_safe (root : Py) (fuel : Nat)
    (fields : List (String × Py)) (hs : safeFields fields = true)
    (hd : depthFields fields ≤ fuel) :
    mapExcept (fun kv => (fun v' => (kv.1, v')) <$>
      deepResolveItem root (deep_resolve root fuel) kv.2) fields = .ok fields := by
  match fields with
  | [] => simp [mapExcept]
  | (k, v) :: rest =>
    have h1 : itemOk v = true := by
      simp only [safeFields, Bool.and_eq_true] at hs
      exact hs.1.1
    have h2 : safeTree v = true := by
      simp only [safeFields, Bool.and_eq_true] at hs
      exact hs.1.2
    have h3 : safeFields rest = true := by
      simp only [safeFields, Bool.and_eq_true] at hs
      exact hs.2
    have hdm : max (pyDepth v) (depthFields rest) ≤ fuel := by
      have heq : depthFields ((k, v) :: rest)
          = max (pyDepth v) (depthFields rest) := by simp [depthFields]
      omega
    have hd1 : pyDepth v ≤ fuel := le_trans (Nat.le_max_left _ _) hdm
    have hd2 : depthFields rest ≤ fuel := le_trans (Nat.le_max_right _ _) hdm
    have hv : deepResolveItem root (deep_resolve root fuel) v = .ok v := by
      rw [deepResolveItem, itemOk_refIn h1]
      exact deep_resolve_safe root fuel v h2 hd1
    have hrest := deep_resolve_fields_safe root fuel rest h3 hd2
    simp only [mapExcept, hv, hrest, Except.map_ok]
    rfl
termination_by (fuel, sizeOf fields)

/-- Pass-through of the per-item map over container elements. -/
theorem deep_resolve_items_safe (root : Py) (fuel : Nat) (items : List Py)
    (hs : safeItems items = true) (hd : depthItems items ≤ fuel) :
    mapExcept (deepResolveItem root (deep_resolve root fuel)) items
      = .ok items := by
  match items with
  | [] => simp [mapExcept]
  | v :: rest =>
    have h1 : itemOk v = true := by
      simp only [safeItems, Bool.and_eq_true] at hs
      exact hs.1.1
    have h2 : safeTree v = true := by
      simp only [safeItems, Bool.and_eq_true] at hs
      exact hs.1.2
    have h3 : safeItems rest = true := by
      simp only [safeItems, Bool.and_eq_true] at hs
      exact hs.2
    have hdm : max (pyDepth v) (depthItems rest) ≤ fuel := by
      have heq : depthItems (v :: rest)
          = max (pyDepth v) (depthItems rest) := by simp [depthItems]
      omega
    have hd1 : pyDepth v ≤ fuel := le_trans (Nat.le_max_left _ _) hdm
    have hd2 : depthItems rest ≤ fuel := le_trans (Nat.le_max_right _ _) hdm
    have hv : deepResolveItem root (deep_resolve root fuel) v = .ok v := by
      rw [deepResolveItem, itemOk_refIn h1]
      exact deep_resolve_safe root fuel v h2 hd1
    have hrest := deep_resolve_items_safe root fuel rest h3 hd2
    simp only [mapExcept, hv, hrest, Except.map_ok]
    rfl
termination_by (fuel, sizeOf items)

end

/-- C7 (counterexample): on the document mapping `a` to the number `1`,
`resolve_references` raises `TypeError` instead of returning the non-ref
scalar unchanged. -/
theorem resolve_references_scalar_counterexample :
    resolve_references (Py.dict [("a", Py.int 1)]) = .error .typeError
    ∧ resolve_references (Py.dict [("a", Py.int 1)])
        ≠ .ok (Py.dict [("a", Py.int 1)]) := by
  refine ⟨rfl, ?_⟩
  rw [show resolve_references (Py.dict [("a", Py.int 1)])
      = Except.error ResolveErr.typeError from rfl]
  simp

/-- C7 (amended): every `$ref`-shaped dict at a value/item position is
replaced by the recursively resolved target dereferenced against the original
root, and every tree whose nested values are containers or benign strings
passes through unchanged (container types preserved, since the tree is
returned as-is); but a number, boolean or null nested inside a container
makes resolution raise `TypeError`, because the `$ref` membership test is
applied to every value regardless of its type. -/
theorem resolve_references_amended :
    (∀ t : Py, safeTree t = true → pyDepth t ≤ PYTHON_RECURSION_LIMIT →
      resolve_references t = .ok t)
    ∧ resolve_references
        (Py.dict [("a", Py.dict [("$ref", Py.str "#/b")]),
                  ("b", Py.dict [("c", Py.str "x")])])
      = .ok (Py.dict [("a", Py.dict [("c", Py.str "x")]),
                      ("b", Py.dict [("c", Py.str "x")])])
    ∧ (∀ (root : Py) (fuel : Nat) (k : String) (n : Int)
        (rest : List (String × Py)),
        deep_resolve root (fuel + 1) (Py.dict ((k, Py.int n) :: rest))
          = .error .typeError)
    ∧ (∀ (root : Py) (fuel : Nat) (k : String) (b : Bool)
        (rest : List (String × Py)),
        deep_resolve root (fuel + 1) (Py.dict ((k, Py.bool b) :: rest))
          = .error .typeError)
    ∧ (∀ (root : Py) (fuel : Nat) (k : String) (rest : List (String × Py)),
        deep_resolve root (fuel + 1) (Py.dict ((k, Py.none) :: rest))
          = .error .typeError) := by
  refine ⟨?_, rfl, ?_, ?_, ?_⟩
  · intro t hs hd
    exact deep_resolve_safe t PYTHON_RECURSION_LIMIT t hs hd
  · intro root fuel k n rest; rfl
  · intro root fuel k b rest; rfl
  · intro root fuel k rest; rfl

/-- Witness for C7 at a concrete safe document. -/
theorem resolve_references_amended_witness :
    resolve_references
        (Py.dict [("title", Py.str "t"),
                  ("items", Py.list [Py.str "x", Py.str "y"])])
      = .ok (Py.dict [("title", Py.str "t"),
                      ("items", Py.list [Py.str "x", Py.str "y"])]) :=
  resolve_references_amended.1 _ rfl (by decide)

/-- C3: for every args sequence, `validate_payload` passes on absent schema
with empty args and raises `PayloadValidationException` on absent schema with
non-empty args; with a declared `array` type the entire args tuple is
validated as one instance; with any other declared type more than one
positional argument raises `PayloadValidationException` regardless of the
conformance predicate (hence regardless of individual element validity), and
a single argument is validated directly against the schema. -/
theorem validate_payload_cases (jvalidate : Py → Py → Bool) (args : List Py) :
    (validate_payload jvalidate args Option.none =
      if args.isEmpty then .ok () else .error .payloadValidationException)
    ∧ (∀ fields t, assocGet fields "type" = some t → isArrayType t = true →
        validate_payload jvalidate args (some (Py.dict fields)) =
          (if jvalidate (Py.tuple args) (Py.dict fields) then .ok ()
           else .error .payloadValidationException))
    ∧ (∀ fields t, assocGet fields "type" = some t → isArrayType t = false →
        2 ≤ args.length →
        validate_payload jvalidate args (some (Py.dict fields)) =
          .error .payloadValidationException)
    ∧ (∀ fields t a, assocGet fields "type" = some t → isArrayType t = false →
        args = [a] →
        validate_payload jvalidate args (some (Py.dict fields)) =
          (if jvalidate a (Py.dict fields) then .ok ()
           else .error .payloadValidationException)) := by
  refine ⟨rfl, ?_, ?_, ?_⟩
  · intro fields t ht harr
    simp only [validate_payload, ht, harr, if_true]
  · intro fields t ht harr hlen
    simp only [validate_payload, ht, harr, if_false, Bool.false_eq_true]
    have h2 : args.length > 1 := hlen
    simp [h2]
  · intro fields t a ht harr hargs
    subst hargs
    simp [validate_payload, ht, harr]

/-- Witness for C3 at concrete inputs: two arguments against an
object-typed schema are rejected although every element would conform. -/
theorem validate_payload_cases_witness :
    validate_payload (fun _ _ => true) [Py.int 1, Py.int 2]
      (some (Py.dict [("type", Py.str "object")])) =
      .error .payloadValidationException :=
  (validate_payload_cases (fun _ _ => true) [Py.int 1, Py.int 2]).2.2.1
    [("type", Py.str "object")] (Py.str "object") rfl rfl (by decide)

/-- C10: `validate_payload` evaluates `args[0]` unconditionally on the
non-array branch, so it raises `IndexError` exactly when a schema with a
declared non-array type is present and the args sequence is empty; in every
other configuration no `IndexError` arises. -/
theorem validate_payload_indexError_iff (jvalidate : Py → Py → Bool)
    (args : List Py) (schema : Option Py) :
    validate_payload jvalidate args schema = .error .indexError ↔
      (∃ fields t, schema = some (Py.dict fields)
        ∧ assocGet fields "type" = some t ∧ isArrayType t = false ∧ args = []) := by
  constructor
  · intro h
    match schema with
    | Option.none =>
      simp only [validate_payload] at h
      split at h <;> simp_all
    | some (Py.dict fields) =>
      match hty : assocGet fields "type" with
      | Option.none => simp only [validate_payload, hty] at h; simp_all
      | some t =>
        simp only [validate_payload, hty] at h
        by_cases harr : isArrayType t = true
        · rw [harr] at h; simp at h; split at h <;> simp_all
        · rw [Bool.not_eq_true] at harr
          rw [harr] at h
          simp only [Bool.false_eq_true, if_false] at h
          split at h
          · simp_all
          · match args with
            | [] => exact ⟨fields, t, rfl, hty, harr, rfl⟩
            | a :: rest => simp at h; split at h <;> simp_all
    | some (Py.str s) => simp [validate_payload] at h
    | some (Py.int n) => simp [validate_payload] at h
    | some (Py.bool b) => simp [validate_payload] at h
    | some Py.none => simp [validate_payload] at h
    | some (Py.list items) => simp [validate_payload] at h
    | some (Py.tuple items) => simp [validate_payload] at h
    | some (Py.set items) => simp [validate_payload] at h
  · rintro ⟨fields, t, hsch, hty, harr, hargs⟩
    subst hsch; subst hargs
    simp [validate_payload, hty, harr]

/-- Witness for C10: an object-typed schema with an empty args tuple raises
`IndexError`. -/
theorem validate_payload_indexError_iff_witness :
    validate_payload (fun _ _ => true) []
      (some (Py.dict [("type", Py.str "object")])) = .error .indexError :=
  (validate_payload_indexError_iff (fun _ _ => true) []
      (some (Py.dict [("type", Py.str "object")]))).2
    ⟨[("type", Py.str "object")], Py.str "object", rfl, rfl, rfl, rfl⟩

/-- C9: constructing a channel whose publish operation contains a message
without an `x-handler` fails with the construction-time `ValueError` (the
spec's SchemaViolation kind), and a channel whose publish messages all carry
handlers constructs without error (as does a channel without a publish
operation). -/
theorem channel_publish_handler_invariant (c : Channel) :
    (∀ op, c.publish = some op →
      (((op.message.oneOf.find? (fun m => m.x_handler.isNone)).isSome →
          ∃ name, mkChannel c =
            .error (.valueError (.missingPublishMessageHandler name)))
        ∧ ((∀ m ∈ op.message.oneOf, m.x_handler ≠ Option.none) →
            mkChannel c = .ok c)))
    ∧ (c.publish = Option.none → mkChannel c = .ok c) := by
  constructor
  · intro op hop
    constructor
    · intro hfound
      match hf : op.message.oneOf.find? (fun m => m.x_handler.isNone) with
      | Option.none => rw [hf] at hfound; simp at hfound
      | some m =>
        refine ⟨m.name, ?_⟩
        simp [mkChannel, Channel.post_init, hop, hf]
    · intro hall
      have hf : op.message.oneOf.find? (fun m => m.x_handler.isNone) = Option.none := by
        rw [List.find?_eq_none]
        intro m hm
        have := hall m hm
        simp [Option.isNone_iff_eq_none]
        exact this
      simp [mkChannel, Channel.post_init, hop, hf]
  · intro hnone
    simp [mkChannel, Channel.post_init, hnone]

/-- Witness for C9: a publish message without a handler fails construction;
the same channel with a handler constructs. -/
theorem channel_publish_handler_invariant_witness :
    mkChannel { publish := some ⟨⟨[{ name := "msg" }]⟩⟩ } =
      .error (.valueError (.missingPublishMessageHandler "msg")) := by
  obtain ⟨name, h⟩ :=
    ((channel_publish_handler_invariant { publish := some ⟨⟨[{ name := "msg" }]⟩⟩ }).1
      ⟨⟨[{ name := "msg" }]⟩⟩ rfl).1 (by decide)
  have hname : name = "msg" := by
    have := h
    rw [show mkChannel { publish := some ⟨⟨[{ name := "msg" }]⟩⟩ } =
      .error (.valueError (.missingPublishMessageHandler "msg")) from rfl] at this
    cases this
    rfl
  rw [hname] at h
  exact h

/-- C5 (failing part): both requested scopes `b` and `a` are declared by the
scheme's flows, yet validation of the requirement `oauth2: [b, a]` fails,
reporting `a` as undefined — the `supported_scopes` generator is consumed by
the first membership test — while the same requirement listed in generator
order `[a, b]` passes; accordingly, whole-document construction of a spec
carrying the `[b, a]` requirement fails. -/
theorem oauth2_multi_scope_requirement_rejected :
    OAuth2Flows.supported_scopes
        { implicit := some { scopes := [("a", "A"), ("b", "B")],
                             authorization_url := some "https://auth" } }
      = ["a", "b"]
    ∧ validate_security_requirement [("oauth2", oauth2SchemeAB)]
        [("oauth2", ["b", "a"])] "dev"
      = .error (.valueError (.undefinedOAuth2Scope "a" "oauth2"))
    ∧ validate_security_requirement [("oauth2", oauth2SchemeAB)]
        [("oauth2", ["a", "b"])] "dev" = .ok ()
    ∧ AsyncApiSpec.from_dict specDocBA
      = .error (.valueError (.undefinedOAuth2Scope "a" "oauth2")) :=
  ⟨rfl, rfl, rfl, rfl⟩

/-- C4 (failing part): building the http/bearer check for a scheme that
declares only `x-bearerInfoFunc` fails with the missing-api-key-info
security exception (the build consults `x-apiKeyInfoFunc` via
`load_api_key_info_func`); and when both fields are present, the built check
invokes the api-key-info function, not the bearer-info one. -/
theorem http_bearer_check_uses_api_key_func :
    build_http_security_check envBearerOnly ("bearer", []) bearerOnlyScheme
      = .error (.securityException (some SecMsg.missingApiKeyInfoFunc))
    ∧ ∃ check,
        build_http_security_check envBearerBoth ("bearer", []) bearerBothScheme
          = .ok (some check)
        ∧ check { headers := [("Authorization", "bearer sometoken")] }
          = .ok (some [("via", Py.str "apiKeyInfoFunc")], Option.none) :=
  ⟨rfl, _, rfl, by rfl⟩

/-- C8: whenever `from_dict` succeeds on a resolved document, `to_dict`
returns the literal originally supplied document (the attached `_raw`), not
the `asdict` re-serialization of the typed model. -/
theorem from_dict_to_dict_roundtrip (d : Py) (s : AsyncApiSpec) :
    AsyncApiSpec.from_dict d = .ok s → s.to_dict = d := by
  intro h
  unfold AsyncApiSpec.from_dict at h
  cases hf : forgeAsyncApiSpec d with
  | error e => rw [hf] at h; simp [Except.bind] at h
  | ok spec =>
    rw [hf] at h
    simp only [Except.bind, bind, pure, Except.pure] at h
    cases h
    rfl

/-- Bind of a successful `Except` computation reduces to its continuation. -/
theorem exceptOkBind {ε α β : Type} (a : α) (f : α → Except ε β) :
    (Except.ok a >>= f : Except ε β) = f a := rfl

/-- Bind of a failed `Except` computation propagates the error. -/
theorem exceptErrorBind {ε α β : Type} (e : ε) (f : α → Except ε β) :
    ((Except.error e : Except ε α) >>= f) = Except.error e := rfl

/-- C2: a channel-level `x_security` list entirely replaces the server-level
security for the namespace — the registration outcome does not depend on the
server security at all once `x_security` is present; with `x_security = []`
no security wrapper is applied whatever the channel declares, and a channel
without a connect handler registers nothing, so any (in particular an
unauthenticated) connection to the namespace is admitted. -/
theorem channel_security_override (env : HandlerEnv) (jv : Py → Py → Bool)
    (validation : Bool) (schemes : List (String × SecurityScheme))
    (srv srv' : List SecurityRequirement) (ch : Option ChannelHandlers)
    (cb : Option ChannelBindings) (cs : List SecurityRequirement)
    (request : Request) :
    (register_namespace_connect env jv validation schemes srv ch cb (some cs)
      = register_namespace_connect env jv validation schemes srv' ch cb (some cs))
    ∧ (∀ reg,
        register_namespace_connect env jv validation schemes srv ch cb (some [])
          = .ok reg → reg.securityApplied = false)
    ∧ (ch.bind ChannelHandlers.connect = Option.none →
        ∃ reg,
          register_namespace_connect env jv validation schemes srv ch cb (some [])
            = .ok reg ∧ reg.registered = false ∧ reg.admits request) := by
  refine ⟨rfl, ?_, ?_⟩
  · intro reg h
    unfold register_namespace_connect at h
    cases hl : load_connect_handler env jv validation ch cb with
    | error e => rw [hl] at h; rw [exceptErrorBind] at h; cases h
    | ok loaded =>
      rw [hl] at h
      rw [exceptOkBind] at h
      cases loaded with
      | some hfun => cases h; rfl
      | none => cases h; rfl
  · intro hconn
    have hl : load_connect_handler env jv validation ch cb = .ok Option.none := by
      cases ch with
      | none => rfl
      | some chh =>
        have hconn' : chh.connect = Option.none := by
          simpa [Option.bind] using hconn
        simp only [load_connect_handler, hconn']
    refine ⟨{ registered := false, securityApplied := false,
              behavior := noop_handler }, ?_, rfl, Or.inl rfl⟩
    unfold register_namespace_connect
    rw [hl, exceptOkBind]
    rfl

/-- Witness for C2: a channel declaring `x_security = []` and no connect
handler, on a server that itself declares basic security, registers nothing
and admits a request without credentials. -/
theorem channel_security_override_witness :
    ∃ reg,
      register_namespace_connect envW (fun _ _ => true) true
          [("basic", basicSchemeW)] [[("basic", [])]]
          (some {}) Option.none (some []) = .ok reg
        ∧ reg.registered = false ∧ reg.admits {} :=
  (channel_security_override envW (fun _ _ => true) true [("basic", basicSchemeW)]
    [[("basic", [])]] [[("basic", [])]] (some {}) Option.none [] {}).2.2 rfl

/-- C6: after the oauth2 token lookup succeeds, the required scopes are
validated against the claims' scope list by the configured custom validator
when one is present and otherwise by the default set-containment
`validate_scopes`; a missing required scope makes the check raise a
`SecurityException` even though token lookup succeeded. -/
theorem oauth2_scope_enforcement (env : HandlerEnv)
    (requirement : InternalSecurityRequirement) (scheme : SecurityScheme)
    (check : InternalSecurityCheck) (request : Request) (tid : String)
    (tif : TokenInfoFunc) (claims : ClaimsInfo) (elems : List String)
    (h1 : scheme.x_token_info_func = some tid)
    (h2 : assocGet env.tokenInfoFuncs tid = some tif)
    (h3 : build_oauth2_security_check env requirement scheme = .ok (some check))
    (h4 : validate_authorization_header request tif = .ok (some claims))
    (h5 : pyScopeElems (tokenScopesOf claims) = .ok elems) :
    (scheme.x_scope_validate_func = Option.none →
      ∀ missing,
        missing = (requirement.2.filter (fun s => !(elems.contains s))).eraseDups →
        missing ≠ [] →
        check request = .error (.securityException
          (some (SecMsg.missingRequiredScopes missing))))
    ∧ (∀ vid f, scheme.x_scope_validate_func = some vid → vid ≠ "" →
        assocGet env.scopeValidateFuncs vid = some f →
        f requirement.2 (tokenScopesOf claims) = .ok false →
        check request = .error (.securityException
          (some (SecMsg.invalidScopes requirement.2 (tokenScopesOf claims))))) := by
  have hload : load_token_info_func env scheme = .ok tif := by
    simp only [load_token_info_func, h1, h2]
  have hcheck : check = oauth2_security_check env scheme tif requirement.2 := by
    unfold build_oauth2_security_check at h3
    rw [hload, exceptOkBind] at h3
    have := h3
    simp only [pure, Except.pure, Except.ok.injEq, Option.some.injEq] at this
    exact this.symm
  subst hcheck
  constructor
  · intro hnone missing hmiss hne
    have hsv : load_scope_validate_func env scheme = .ok validate_scopes := by
      simp only [load_scope_validate_func, hnone]
    have hvs : validate_scopes requirement.2 (tokenScopesOf claims)
        = .error (.securityException (some (SecMsg.missingRequiredScopes missing))) := by
      unfold validate_scopes
      rw [h5, exceptOkBind, ← hmiss, if_pos hne]
    unfold oauth2_security_check
    rw [h4, exceptOkBind, hsv, exceptOkBind]
    simp only [hvs, exceptErrorBind]
  · intro vid f hvid hvne hf hfalse
    have hsv : load_scope_validate_func env scheme = .ok f := by
      simp only [load_scope_validate_func, hvid, if_neg hvne, hf]
    unfold oauth2_security_check
    rw [h4, exceptOkBind, hsv, exceptOkBind]
    simp only [hfalse, exceptOkBind]
    rfl

/-- Witness for C6: requirement `oauth2: [read]` with token-info claims
scoped to `write` only makes the built check raise the missing-scopes
security exception. -/
theorem oauth2_scope_enforcement_witness :
    ∃ check,
      build_oauth2_security_check envC6 ("oauth2", ["read"]) oauth2SchemeC6
        = .ok (some check)
      ∧ check requestBearerW = .error (.securityException
          (some (SecMsg.missingRequiredScopes ["read"]))) := by
  refine ⟨_, rfl, ?_⟩
  exact (oauth2_scope_enforcement envC6 ("oauth2", ["read"]) oauth2SchemeC6 _
    requestBearerW "tests.token_info" _ [("scopes", Py.list [Py.str "write"])]
    ["write"] rfl rfl rfl rfl rfl).1 rfl ["read"] rfl (by decide)

/-- The outcome of an inapplicable security check: no error message and a
falsy claims result (absent or empty). -/
def checkSkips (res : Except PyExc InternalSecurityCheckResponse) : Prop :=
  res = .ok (Option.none, Option.none) ∨ res = .ok (some [], Option.none)

/-- A skipping head check leaves the handler loop on the tail. -/
theorem security_handler_run_skip (c : InternalSecurityCheck)
    (rest : List InternalSecurityCheck) (request : Request)
    (h : checkSkips (c request)) :
    security_handler_run (c :: rest) request
      = security_handler_run rest request := by
  rcases h with h | h
  · conv_lhs => rw [security_handler_run]
    rw [h, exceptOkBind]
  · conv_lhs => rw [security_handler_run]
    rw [h, exceptOkBind]
    rfl

/-- When every check skips, the loop raises the no-checks-passed security
exception. -/
theorem security_handler_run_exhausted (checks : List InternalSecurityCheck)
    (request : Request) (h : ∀ c ∈ checks, checkSkips (c request)) :
    security_handler_run checks request
      = .error (.securityException (some SecMsg.noChecksPassed)) := by
  induction checks with
  | nil => rfl
  | cons c rest ih =>
    rw [security_handler_run_skip c rest request (h c (by simp))]
    exact ih (fun c' hc' => h c' (by simp [hc']))

/-- The first check returning truthy claims after a prefix of skipping checks
determines the loop's result, whatever the later checks would do. -/
theorem security_handler_run_first_success (pre : List InternalSecurityCheck)
    (c : InternalSecurityCheck) (post : List InternalSecurityCheck)
    (request : Request) (m : ClaimsInfo)
    (hpre : ∀ c' ∈ pre, checkSkips (c' request))
    (hc : c request = .ok (some m, Option.none)) (hm : m ≠ []) :
    security_handler_run (pre ++ c :: post) request = .ok m := by
  induction pre with
  | nil =>
    rw [List.nil_append]
    unfold security_handler_run
    rw [hc, exceptOkBind]
    simp only [List.isEmpty_iff, hm, if_false]
    rfl
  | cons c0 rest ih =>
    rw [List.cons_append,
      security_handler_run_skip c0 (rest ++ c :: post) request (hpre c0 (by simp))]
    exact ih (fun c' hc' => hpre c' (by simp [hc']))

/-- C1: the handler built by `build_security_handler` closes over the checks
built from the requirements in declaration order (a requirement whose scheme
builds a check contributes it at its position); on a request, the first check
of the list that returns a non-empty claims mapping wins immediately — later
checks are irrelevant — inapplicable checks are skipped silently, and if all
checks are exhausted the handler raises the no-checks-passed
`SecurityException`. -/
theorem security_handler_evaluation (env : HandlerEnv)
    (security : List InternalSecurityRequirement)
    (schemes : List (String × SecurityScheme))
    (handler : Request → Except PyExc ClaimsInfo) (request : Request)
    (hb : build_security_handler env security schemes = .ok handler) :
    (∀ r rest scheme builder check checks',
      assocGet schemes r.1 = some scheme →
      builder_dispatch scheme.type = some builder →
      builder env r scheme = .ok (some check) →
      build_security_checks env schemes rest = .ok checks' →
      build_security_checks env schemes (r :: rest) = .ok (check :: checks'))
    ∧ (∀ checks, build_security_checks env schemes security = .ok checks →
        ((∀ pre c post m, checks = pre ++ c :: post →
            (∀ c' ∈ pre, checkSkips (c' request)) →
            c request = .ok (some m, Option.none) → m ≠ [] →
            handler request = .ok m)
          ∧ ((∀ c' ∈ checks, checkSkips (c' request)) →
              handler request = .error
                (.securityException (some SecMsg.noChecksPassed))))) := by
  constructor
  · intro r rest scheme builder check checks' hs hd hbuild hrest
    simp only [build_security_checks, hs, hd, hbuild, exceptOkBind, hrest]
    rfl
  · intro checks hc
    have hh : handler = security_handler_run checks := by
      unfold build_security_handler at hb
      rw [hc, exceptOkBind] at hb
      have := hb
      simp only [pure, Except.pure, Except.ok.injEq] at this
      exact this.symm
    subst hh
    constructor
    · intro pre c post m hsplit hpre hcm hm
      subst hsplit
      exact security_handler_run_first_success pre c post request m hpre hcm hm
    · intro hall
      exact security_handler_run_exhausted checks request hall

/-- Witness for C1: requirements `[basic, oauth2]` with a bearer request —
the basic check is inapplicable and skipped, the oauth2 check succeeds and
its claims are returned. -/
theorem security_handler_evaluation_witness :
    ∃ handler,
      build_security_handler envW [("basic", []), ("oauth2", [])]
          [("basic", basicSchemeW), ("oauth2", oauth2SchemeW)] = .ok handler
        ∧ handler requestBearerW = .ok [("sub", Py.str "tok")] := by
  refine ⟨_, rfl, ?_⟩
  obtain ⟨-, hrun⟩ := security_handler_evaluation envW
    [("basic", []), ("oauth2", [])]
    [("basic", basicSchemeW), ("oauth2", oauth2SchemeW)] _ requestBearerW rfl
  obtain ⟨hfirst, -⟩ := hrun _ rfl
  exact hfirst [_] _ [] [("sub", Py.str "tok")] rfl
    (by
      intro c' hc'
      simp only [List.mem_singleton] at hc'
      subst hc'
      exact Or.inl rfl)
    rfl (by simp)

/-- Witness for C8: a concrete minimal document round-trips to itself. -/
theorem from_dict_to_dict_roundtrip_witness :
    ∃ s, AsyncApiSpec.from_dict
        (Py.dict [("asyncapi", .str "2.3.0"),
                  ("channels", .dict []),
                  ("info", .dict [("title", .str "t"), ("version", .str "1")])])
      = .ok s
      ∧ s.to_dict =
        Py.dict [("asyncapi", .str "2.3.0"),
                 ("channels", .dict []),
                 ("info", .dict [("title", .str "t"), ("version", .str "1")])] :=
  ⟨_, rfl, from_dict_to_dict_roundtrip _ _ rfl⟩

end Asynction
